import Mathlib

/-
Verification of the outreach-engine core (account lifecycle manager and
email discovery pipeline) of the starmovers repository.

The Python modules `outreach_engine/account_manager.py` and
`outreach_engine/email_discovery.py` are embedded shallowly:

* The SQLite store is a pure value `DB` holding the `contacts` rows and the
  append-only `touch_log` rows.  SQL `UPDATE ... WHERE id = ?` becomes a map
  over the contact list that rewrites every row with a matching id, and
  `SELECT ... fetchone` becomes `List.find?`.
* Calendar dates (ISO `YYYY-MM-DD` strings compared lexicographically in the
  SQL, which agrees with chronological order) become `Nat` day numbers; the
  SQLite empty-string "no date" sentinel becomes `Option Nat` with `none`
  standing for `''`.  `date.today()` and `datetime.now()` are explicit
  `today : Nat` / `now : Int` parameters.
* The configuration attributes `cfg.revisit_no_reply_days` and
  `cfg.confidence_weights` (declared operator-tunable; `config.py` reads
  them from the environment) are explicit parameters `days : Nat` and
  `w : Weights`.
* Network effects of the discovery pipeline (DNS MX lookup, HTTP scraping,
  Google search, SMTP probing, the Hunter.io API) are parameters collected
  in a `DiscoveryEnv`; a Python `None`/exception outcome of an SMTP probe is
  `Option Bool` with `none` for "inconclusive".
-/

namespace StarMovers

/-! ## Data model (the `contacts` and `touch_log` tables) -/

/-- One row of the `touch_log` table (append-only). -/
structure Touch where
  contact_id : Nat
  channel : String
  direction : String
  subject : String
  notes : String
  touch_date : Nat
deriving DecidableEq, Repr

/-- One row of the `contacts` table, restricted to the columns the
account manager reads or writes.  `signal_count`, `has_opens` and
`last_sent` stand for the three correlated-subquery aggregates of
`compute_confidence_score` (over `news_signals` / `outreach_bundles`,
tables that none of the modelled operations ever write). -/
structure Contact where
  id : Nat
  account_status : String
  next_action : String
  next_action_date : Option Nat
  last_touch_date : Option Nat
  confidence_score : Int
  email_status : String
  decision_maker_found : Bool
  contact_name : String
  title_role : String
  website : String
  phone : String
  tier : String
  signal_count : Nat
  has_opens : Nat
  last_sent : Option Int
deriving DecidableEq, Repr

/-- The persistent store. -/
structure DB where
  contacts : List Contact
  touch_log : List Touch
deriving DecidableEq, Repr

/-- The ten confidence-factor weights (`cfg.confidence_weights`). -/
structure Weights where
  email_verified : Int
  email_likely : Int
  decision_maker_found : Int
  website_exists : Int
  phone_exists : Int
  high_value_tier : Int
  has_news_signal : Int
  account_engaged : Int
  has_opens : Int
  recent_activity : Int
deriving DecidableEq, Repr

/-- `row["account_status"] or "cold"`: empty (NULL) status defaults to cold. -/
def effStatus (s : String) : String :=
  if s = "" then "cold" else s

/-- The `last_sent` recent-activity test:
`(datetime.now() - sent_date).days <= 30`, with parse failure / NULL
(`none`) failing soft. -/
def recentActivity (now : Int) : Option Int → Bool
  | some t => decide (now - t ≤ 30)
  | none => false

/-- `next_action_date != '' AND next_action_date <= today` (ISO date
strings compare lexicographically, i.e. chronologically). -/
def dateDue (today : Nat) : Option Nat → Bool
  | some d => decide (d ≤ today)
  | none => false

/-- The `VALID_TRANSITIONS` table of `account_manager.py`. -/
def VALID_TRANSITIONS (s : String) : List String :=
  if s = "cold" then ["contacted", "revisit", "dnc"]
  else if s = "contacted" then ["engaged", "revisit", "dnc"]
  else if s = "engaged" then ["qualified", "revisit", "dnc"]
  else if s = "qualified" then ["partnered", "revisit", "dnc"]
  else if s = "partnered" then ["revisit", "dnc"]
  else if s = "revisit" then ["cold", "dnc"]
  else []

/-- `UPDATE contacts SET ... WHERE id = cid`, as a map over the rows. -/
def updContact (cid : Nat) (f : Contact → Contact) (l : List Contact) :
    List Contact :=
  l.map (fun c => if c.id == cid then f c else c)

/-- `SELECT * FROM contacts WHERE id = ?` + `fetchone`. -/
def findContact (db : DB) (cid : Nat) : Option Contact :=
  db.contacts.find? (fun c => c.id == cid)

/-! ## Confidence scorer (`compute_confidence_score`) -/

/-- The pure scoring core of `compute_confidence_score`: the weighted sum
over the ten factors, clamped into `[0, 100]` by `max(0, min(100, score))`.
The `last_sent` recent-activity check `(datetime.now() - sent_date).days
<= 30` is `now - t ≤ 30`; an unparsable/missing timestamp is `none`. -/
def score_of_contact (w : Weights) (now : Int) (c : Contact) : Int :=
  let s : Int := 0
  let s := if c.email_status = "verified" then s + w.email_verified
           else if c.email_status = "likely" then s + w.email_likely
           else s
  let s := if c.decision_maker_found ∨ (c.contact_name ≠ "" ∧ c.title_role ≠ "")
           then s + w.decision_maker_found else s
  let s := if c.website ≠ "" then s + w.website_exists else s
  let s := if c.phone ≠ "" then s + w.phone_exists else s
  let s := if c.tier = "A" ∨ c.tier = "HOT" then s + w.high_value_tier else s
  let s := if c.signal_count > 0 then s + w.has_news_signal else s
  let st := effStatus c.account_status
  let s := if st = "engaged" ∨ st = "qualified" ∨ st = "partnered"
           then s + w.account_engaged else s
  let s := if c.has_opens > 0 then s + w.has_opens else s
  let s := if recentActivity now c.last_sent then s + w.recent_activity else s
  max 0 (min 100 s)

/-- `compute_confidence_score(contact_id)`: returns the score and writes it
back to the row's `confidence_score`; a missing contact returns 0 with no
write. -/
def compute_confidence_score (w : Weights) (now : Int) (db : DB) (cid : Nat) :
    Int × DB :=
  match findContact db cid with
  | none => (0, db)
  | some row =>
    let score := score_of_contact w now row
    (score,
     { db with contacts :=
         (updContact cid (fun c => { c with confidence_score := score })
           db.contacts) })

/-- `batch_recalculate_confidence()`: rescore every non-DNC contact;
returns the number of contacts processed. -/
def batch_recalculate_confidence (w : Weights) (now : Int) (db : DB) :
    Nat × DB :=
  let ids := (db.contacts.filter
      (fun c => decide (c.account_status ≠ "dnc"))).map (·.id)
  ids.foldl
    (fun acc cid => (acc.1 + 1, (compute_confidence_score w now acc.2 cid).2))
    (0, db)

/-! ## Validated status transition (`transition_account_status`) -/

/-- The dict returned by `transition_account_status`
(`{success, old_status, new_status, error}`). -/
structure TransitionResult where
  success : Bool
  error : String := ""
  old_status : String := ""
  new_status : String := ""
deriving DecidableEq, Repr

/-- The Touch row logged by a successful transition. -/
def transTouch (cid : Nat) (old new notes : String) (today : Nat) : Touch :=
  { contact_id := cid, channel := "email", direction := "outbound",
    subject := "Status: " ++ old ++ " → " ++ new, notes := notes,
    touch_date := today }

/-- The field updates a successful transition applies to the row:
`account_status`, `last_touch_date`, plus the revisit / dnc specific
`next_action` / `next_action_date` metadata. -/
def applyTransition (new_status : String) (today days : Nat) (c : Contact) :
    Contact :=
  let c := { c with account_status := new_status,
                    last_touch_date := some today }
  if new_status = "revisit" then
    { c with next_action_date := some (today + days),
             next_action := "revisit_expiry" }
  else if new_status = "dnc" then
    { c with next_action_date := none, next_action := "permanent_dnc" }
  else c

/-- `transition_account_status(contact_id, new_status, notes)`:
validation (existence, DNC permanence, the transition table), then the row
update, the touch-log append, and the confidence recomputation. -/
def transition_account_status (days : Nat) (w : Weights) (today : Nat)
    (now : Int) (db : DB) (cid : Nat) (new_status notes : String) :
    TransitionResult × DB :=
  match findContact db cid with
  | none => ({ success := false, error := "Contact not found" }, db)
  | some row =>
    let old := effStatus row.account_status
    if old = "dnc" then
      ({ success := false,
         error := "Contact is DNC — permanent, cannot transition",
         old_status := old, new_status := new_status }, db)
    else if new_status ∈ VALID_TRANSITIONS old then
      let db1 : DB :=
        { db with contacts :=
            updContact cid (applyTransition new_status today days) db.contacts }
      let db2 : DB :=
        { db1 with touch_log :=
            db1.touch_log ++ [transTouch cid old new_status notes today] }
      let db3 := (compute_confidence_score w now db2 cid).2
      ({ success := true, old_status := old, new_status := new_status }, db3)
    else
      ({ success := false,
         error := "Invalid transition: " ++ old ++ " → " ++ new_status,
         old_status := old, new_status := new_status }, db)

/-- `mark_dnc(contact_id, reason)` — thin wrapper. -/
def mark_dnc (days : Nat) (w : Weights) (today : Nat) (now : Int) (db : DB)
    (cid : Nat) (reason : String) : TransitionResult × DB :=
  transition_account_status days w today now db cid "dnc" reason

/-! ## Enforcement jobs -/

/-- The `enforce_revisit_expiry` selection condition:
`account_status = 'revisit' AND next_action_date != '' AND
next_action_date <= today`. -/
def expiredRevisit (today : Nat) (c : Contact) : Bool :=
  decide (c.account_status = "revisit") && dateDue today c.next_action_date

/-- `enforce_revisit_expiry()`: move every expired revisit contact back to
cold; returns the number of successful reactivations. -/
def enforce_revisit_expiry (days : Nat) (w : Weights) (today : Nat)
    (now : Int) (db : DB) : Nat × DB :=
  let ids := (db.contacts.filter (expiredRevisit today)).map (·.id)
  ids.foldl
    (fun acc cid =>
      let r := transition_account_status days w today now acc.2 cid "cold"
        "Revisit expired — reactivated"
      (if r.1.success then acc.1 + 1 else acc.1, r.2))
    (0, db)

/-- `COUNT(*)` of outbound email touches for a contact. -/
def outbound_count (tl : List Touch) (cid : Nat) : Nat :=
  (tl.filter (fun t =>
    decide (t.contact_id = cid ∧ t.channel = "email" ∧
      t.direction = "outbound"))).length

/-- `COUNT(*)` of inbound touches (any channel) for a contact. -/
def inbound_count (tl : List Touch) (cid : Nat) : Nat :=
  (tl.filter (fun t =>
    decide (t.contact_id = cid ∧ t.direction = "inbound"))).length

/-- One snapshot row of the `enforce_no_reply_revisit` query. -/
structure NoReplyRow where
  id : Nat
  account_status : String
  outbound_count : Nat
  inbound_count : Nat
deriving DecidableEq, Repr

/-- The `enforce_no_reply_revisit` scope condition:
`account_status IN ('cold','contacted') AND account_status != 'dnc'`. -/
def noReplyScope (c : Contact) : Bool :=
  decide ((c.account_status = "cold" ∨ c.account_status = "contacted") ∧
    c.account_status ≠ "dnc")

/-- The snapshot the `enforce_no_reply_revisit` query takes before its loop. -/
def no_reply_rows (db : DB) : List NoReplyRow :=
  (db.contacts.filter noReplyScope).map (fun c =>
    { id := c.id, account_status := c.account_status,
      outbound_count := outbound_count db.touch_log c.id,
      inbound_count := inbound_count db.touch_log c.id })

/-- The body of the `enforce_no_reply_revisit` loop for one snapshot row:
3+ outbound, 0 inbound ⇒ park to revisit (direct write for `cold`,
validated transition plus `next_action` override for `contacted`). -/
def no_reply_step (days : Nat) (w : Weights) (today : Nat) (now : Int)
    (acc : Nat × DB) (r : NoReplyRow) : Nat × DB :=
  if r.outbound_count ≥ 3 ∧ r.inbound_count = 0 then
    if r.account_status = "cold" then
      (acc.1 + 1,
       { acc.2 with contacts :=
           updContact r.id (fun c =>
             { c with account_status := "revisit",
                      next_action_date := some (today + days),
                      next_action := "no_reply_revisit",
                      last_touch_date := some today }) acc.2.contacts })
    else if r.account_status = "contacted" then
      let t := transition_account_status days w today now acc.2 r.id "revisit"
        "3 email touches with no reply — parked"
      if t.1.success then
        (acc.1 + 1,
         { t.2 with contacts :=
             updContact r.id (fun c =>
               { c with next_action_date := some (today + days),
                        next_action := "no_reply_revisit" }) t.2.contacts })
      else (acc.1, t.2)
    else acc
  else acc

/-- `enforce_no_reply_revisit()`: returns the number of contacts parked. -/
def enforce_no_reply_revisit (days : Nat) (w : Weights) (today : Nat)
    (now : Int) (db : DB) : Nat × DB :=
  (no_reply_rows db).foldl (no_reply_step days w today now) (0, db)

/-! ## Hooks and the daily orchestrator -/

/-- `on_email_sent(contact_id, bundle_id)`: cold → contacted transition,
then the unconditional outbound touch and `last_touch_date` update. -/
def on_email_sent (days : Nat) (w : Weights) (today : Nat) (now : Int)
    (db : DB) (cid bundle_id : Nat) : DB :=
  match findContact db cid with
  | none => db
  | some row =>
    let current := effStatus row.account_status
    let db1 :=
      if current = "cold" then
        (transition_account_status days w today now db cid "contacted"
          ("First email sent (bundle #" ++ toString bundle_id ++ ")")).2
      else db
    let db2 : DB :=
      { db1 with touch_log := db1.touch_log ++
          [{ contact_id := cid, channel := "email", direction := "outbound",
             subject := "Email sent",
             notes := "bundle_id=" ++ toString bundle_id,
             touch_date := today }] }
    { db2 with contacts :=
        (updContact cid (fun c => { c with last_touch_date := some today })
          db2.contacts) }

/-- The result dict of `run_account_maintenance`. -/
structure MaintResult where
  recalculated : Nat
  reactivated : Nat
  parked : Nat
deriving DecidableEq, Repr

/-- `run_account_maintenance()`: the three sub-steps in order. -/
def run_account_maintenance (days : Nat) (w : Weights) (today : Nat)
    (now : Int) (db : DB) : MaintResult × DB :=
  let r := batch_recalculate_confidence w now db
  let a := enforce_revisit_expiry days w today now r.2
  let p := enforce_no_reply_revisit days w today now a.2
  ({ recalculated := r.1, reactivated := a.1, parked := p.1 }, p.2)

/-- The exception-flow skeleton of `run_account_maintenance`: the three
sub-step calls in source order, where a sub-step may raise
(`Except.error`).  Python's straight-line `recalced = ...; reactivated =
...; parked = ...` propagates a raised exception and skips the remaining
calls, which is exactly the `Except` bind. -/
def run_account_maintenance_steps
    (recalc expiry noreply : DB → Except String (Nat × DB)) (db : DB) :
    Except String (MaintResult × DB) :=
  match recalc db with
  | Except.error e => Except.error e
  | Except.ok r =>
    match expiry r.2 with
    | Except.error e => Except.error e
    | Except.ok a =>
      match noreply a.2 with
      | Except.error e => Except.error e
      | Except.ok p =>
        Except.ok
          ({ recalculated := r.1, reactivated := a.1, parked := p.1 }, p.2)

/-- `daily_run.step_account_maintenance()`: wraps the orchestrator call in
`try/except` and falls back to an empty stats dict (`{}`, here `none`). -/
def step_account_maintenance
    (maintenance : Except String (MaintResult × DB)) :
    Option (MaintResult × DB) :=
  match maintenance with
  | Except.ok r => some r
  | Except.error _ => none

/-! ## Email discovery (src/outreach_engine/email_discovery.py)

Network and third-party effects are inputs collected in `DiscoveryEnv`:
`mx` is `validate_mx` (MX host, or `none` for no/failed resolution),
`probe` is the `validate_smtp` RCPT-TO outcome per candidate address
(`none` = inconclusive: timeout, greylisting, rate-limit), `scrape` is
`scrape_emails_from_website website deep`, `google` is
`_google_search_email`, `hunter` is the Hunter.io person-finder. -/

/-- Split a character list at every occurrence of `sep` (Python
`str.split(sep)` for a one-character separator: `""` gives `[""]`,
separators at the ends give empty parts). -/
def splitCharAux (sep : Char) : List Char → List (List Char)
  | [] => [[]]
  | ch :: rest =>
    match splitCharAux sep rest with
    | h :: t => if ch = sep then [] :: h :: t else (ch :: h) :: t
    | [] => if ch = sep then [[], []] else [[ch]]

/-- Python `s.split(sep)` for a one-character separator. -/
def splitOnChar (sep : Char) (s : String) : List String :=
  (splitCharAux sep s.data).map String.mk

/-- Python `s.lower()` (ASCII). -/
def pyLower (s : String) : String :=
  String.mk (s.data.map Char.toLower)

/-- Python `s.strip()`: whitespace removed from both ends. -/
def pyStrip (s : String) : String :=
  String.mk
    (((s.data.dropWhile Char.isWhitespace).reverse.dropWhile
      Char.isWhitespace).reverse)

/-- Every character of the string satisfies `p`. -/
def strAll (s : String) (p : Char → Bool) : Bool :=
  s.data.all p

/-- Python slicing `s[:n]`. -/
def strTake (s : String) (n : Nat) : String :=
  String.mk (s.data.take n)

/-- Python slicing `s[n:]`. -/
def strDrop (s : String) (n : Nat) : String :=
  String.mk (s.data.drop n)

/-- Longest prefix of characters satisfying `p`. -/
def strTakeWhile (s : String) (p : Char → Bool) : String :=
  String.mk (s.data.takeWhile p)

/-- Python `s.startswith(pre)`. -/
def strStartsWith (s pre : String) : Bool :=
  pre.data.isPrefixOf s.data

/-- Python `sep.join(parts)`. -/
def joinWith (sep : String) : List String → String
  | [] => ""
  | [x] => x
  | x :: xs => x ++ sep ++ joinWith sep xs

/-- Character class of the local part: `[a-zA-Z0-9._%+-]`. -/
def isLocalChar (ch : Char) : Bool :=
  ch.isAlphanum || ch == '.' || ch == '_' || ch == '%' || ch == '+' || ch == '-'

/-- Character class of the domain part: `[a-zA-Z0-9.-]`. -/
def isDomainChar (ch : Char) : Bool :=
  ch.isAlphanum || ch == '.' || ch == '-'

/-- `validate_syntax`: the anchored regex
`^[a-zA-Z0-9._%+-]+@[a-zA-Z0-9.-]+\.[a-zA-Z]{2,}$`.  Both classes exclude
`@`, so a match forces exactly one `@`; the domain side matches iff all its
characters are in class and the suffix after its last dot is two or more
letters with a nonempty remainder before that dot. -/
def validate_syntax (email : String) : Bool :=
  match splitOnChar '@' email with
  | [loc, dom] =>
    loc ≠ "" && strAll loc isLocalChar && strAll dom isDomainChar &&
    (let parts := splitOnChar '.' dom
     let tld := parts.getLastD ""
     decide (2 ≤ tld.data.length) && strAll tld Char.isAlpha &&
     decide (2 ≤ parts.length) &&
     decide (joinWith "." parts.dropLast ≠ ""))
  | _ => false

/-- `_extract_domain`: scheme normalization, then the `urlparse` hostname
(the authority up to the first `/`, `:`, `?` or `#`; userinfo syntax is not
modelled), lowercased, with a leading `www.` stripped. -/
def _extract_domain (website : String) : String :=
  if website = "" then ""
  else
    let url := pyStrip website
    let url := if strStartsWith url "http" then url else "https://" ++ url
    let rest :=
      if strStartsWith url "https://" then strDrop url 8
      else if strStartsWith url "http://" then strDrop url 7
      else ""
    let host := strTakeWhile rest
      (fun ch => ch ≠ '/' && ch ≠ ':' && ch ≠ '?' && ch ≠ '#')
    let host := pyLower host
    if strStartsWith host "www." then strDrop host 4 else host

/-- `_parse_name`: split `"First [Middle] Last"` on whitespace into
(first word, last word); a single word has an empty last name. -/
def _parse_name (full_name : String) : String × String :=
  let parts := (splitOnChar ' ' (pyStrip full_name)).filter (· ≠ "")
  match parts with
  | [] => ("", "")
  | [f] => (f, "")
  | f :: rest => (f, rest.getLastD "")

/-- `re.sub(r"[^a-z]", "", s)` applied after `.lower().strip()`. -/
def onlyLowerAlpha (s : String) : String :=
  String.mk (s.data.filter Char.isLower)

/-- Order-preserving dedup that also drops falsy entries
(`if v and v not in seen`). -/
def dedupeKeepOrder (l : List String) : List String :=
  l.foldl (fun acc v => if v ≠ "" ∧ v ∉ acc then acc ++ [v] else acc) []

/-- `generate_email_variations(first_name, last_name, domain, deep)`.
Note on `first[0]` / `last[0]`: the source guards only against the
pre-substitution name being empty, so a first name with no `[a-z]`
characters would raise `IndexError` in Python; here the one-character
prefix is simply empty in that (unreachable in practice) case. -/
def generate_email_variations (first_name last_name domain : String)
    (deep : Bool) : List String :=
  let first := pyStrip (pyLower first_name)
  let last := pyStrip (pyLower last_name)
  if first = "" ∨ domain = "" then []
  else
    let first := onlyLowerAlpha first
    let last := onlyLowerAlpha last
    let f1 := strTake first 1
    let l1 := strTake last 1
    let base : List (Option String) :=
      [some (first ++ "@" ++ domain),
       if last ≠ "" then some (first ++ "." ++ last ++ "@" ++ domain) else none,
       if last ≠ "" then some (first ++ last ++ "@" ++ domain) else none,
       if last ≠ "" then some (f1 ++ last ++ "@" ++ domain) else none,
       if last ≠ "" then some (first ++ l1 ++ "@" ++ domain) else none,
       if last ≠ "" then some (first ++ "_" ++ last ++ "@" ++ domain) else none,
       if last ≠ "" then some (last ++ "@" ++ domain) else none]
    let extra : List (Option String) :=
      if deep ∧ last ≠ "" then
        [some (last ++ "." ++ first ++ "@" ++ domain),
         some (last ++ first ++ "@" ++ domain),
         some (last ++ f1 ++ "@" ++ domain),
         some (f1 ++ "." ++ last ++ "@" ++ domain),
         some (first ++ "-" ++ last ++ "@" ++ domain),
         some (last ++ "-" ++ first ++ "@" ++ domain),
         some (first ++ "." ++ l1 ++ "@" ++ domain),
         some ("info@" ++ domain),
         some ("contact@" ++ domain),
         some ("office@" ++ domain),
         some ("hello@" ++ domain),
         some ("admin@" ++ domain)]
      else []
    dedupeKeepOrder ((base ++ extra).filterMap id)

/-- `_pattern_score`: structural plausibility of the local part. -/
def _pattern_score (email : String) : Nat :=
  let loc := (splitOnChar '@' email).headD ""
  if loc ≠ "" && strAll loc Char.isLower && decide (loc.data.length ≤ 15)
  then 100
  else if (match splitOnChar '.' loc with
           | [a, b] => a ≠ "" && strAll a Char.isLower && b ≠ "" &&
               strAll b Char.isLower
           | _ => false) then 80
  else if loc ≠ "" && strAll loc Char.isLower && decide (4 ≤ loc.data.length)
          && decide (4 < loc.data.length) then 60
  else if (match splitOnChar '_' loc with
           | [a, b] => a ≠ "" && strAll a Char.isLower && b ≠ "" &&
               strAll b Char.isLower
           | _ => false) then 50
  else if loc ∈ ["info", "contact", "office", "hello", "admin", "general"]
  then 30
  else 10

/-- `sorted(candidates, key=_pattern_score, reverse=True)`: stable
descending sort by pattern score. -/
def sortByScoreDesc (l : List String) : List String :=
  l.mergeSort (fun a b => decide (_pattern_score b ≤ _pattern_score a))

/-- Result dict of a Hunter.io `find_email` call (`none` = call failed). -/
structure HunterResult where
  found : Bool
  email : String
  score : Int
  linkedin : String
deriving DecidableEq, Repr

/-- The network/third-party environment of a discovery run. -/
structure DiscoveryEnv where
  mx : String → Option String
  probe : String → Option Bool
  scrape : String → Bool → List String
  google : String → String → String
  hunter_api_key : String
  hunter : String → String → String → Option HunterResult

/-- `is_catch_all(domain)`: MX check, then an SMTP probe of the gibberish
local part; catch-all iff that probe definitely accepts. -/
def is_catch_all (env : DiscoveryEnv) (domain : String) : Bool :=
  match env.mx domain with
  | none => false
  | some _ => env.probe ("zxqj7k9m3wplv@" ++ domain) == some true

/-- The shared SMTP probing loop of `discover_email` /
`rediscover_email`: skip syntactically invalid candidates; a definite
accept stops the loop (`verified`, or `likely` on a catch-all domain); a
definite reject is ignored; an inconclusive probe tentatively remembers
the first such candidate as `likely` and keeps going. -/
def probe_candidates (probe : String → Option Bool) (catch_all : Bool) :
    List String → String × String → String × String
  | [], best => best
  | e :: rest, best =>
    if validate_syntax e = false then probe_candidates probe catch_all rest best
    else
      match probe e with
      | some true => if catch_all then (e, "likely") else (e, "verified")
      | some false => probe_candidates probe catch_all rest best
      | none =>
        if best.1 = "" then probe_candidates probe catch_all rest (e, "likely")
        else probe_candidates probe catch_all rest best

/-- The contact columns `discover_email` / `rediscover_email` read or
write. -/
structure DContact where
  website : String
  contact_name : String
  company_name : String
  domain : String
  discovered_email : String
  email_status : String
  tier : String
  csv_source : String
  bounced_emails : String
  outreach_status : String
  linkedin_url : String
deriving DecidableEq, Repr

/-- Steps 4b–6 of `discover_email` (lines 658–716): the no-candidate
check, catch-all detection, the SMTP probing loop, the
scraped-first/no-guess resolution policy, and the final contact update. -/
def discover_resolve (env : DiscoveryEnv) (domain : String) (cDom : DContact)
    (scraped all_candidates : List String) : (String × String) × DContact :=
  if all_candidates = [] then
    (("", "needs_manual"), { cDom with email_status := "needs_manual" })
  else
    let catch_all := is_catch_all env domain
    let best := probe_candidates env.probe catch_all all_candidates ("", "unknown")
    if best.1 = "" then
      if scraped ≠ [] then
        ((scraped.headD "", "likely"),
         { cDom with discovered_email := scraped.headD "",
                     email_status := "likely" })
      else
        (("", "needs_manual"), { cDom with email_status := "needs_manual" })
    else
      (best, { cDom with discovered_email := best.1, email_status := best.2 })

/-- `discover_email(contact_id)` on an existing contact: returns
`(best_email, email_status)` together with the committed contact row.
The step-1 short-circuit closes its connection without `commit`, so the
pending domain backfill is rolled back there; every other exit commits. -/
def discover_email (env : DiscoveryEnv) (c : DContact) :
    (String × String) × DContact :=
  let domain := if c.domain ≠ "" then c.domain else _extract_domain c.website
  let cDom := if domain ≠ "" ∧ c.domain = ""
              then { c with domain := domain } else c
  if c.discovered_email ≠ "" ∧
     (c.email_status = "verified" ∨ c.email_status = "likely") then
    ((c.discovered_email, c.email_status), c)
  else
    let hunterHit : Option (String × Int × String) :=
      if env.hunter_api_key ≠ "" ∧ domain ≠ "" ∧
         (c.tier = "A" ∨ c.csv_source = "field_intel") then
        let fl := _parse_name c.contact_name
        if fl.1 ≠ "" ∧ fl.2 ≠ "" then
          match env.hunter domain fl.1 fl.2 with
          | some hr => if hr.found ∧ hr.email ≠ ""
                       then some (hr.email, hr.score, hr.linkedin) else none
          | none => none
        else none
      else none
    match hunterHit with
    | some (h_email, h_score, h_linkedin) =>
      let h_status := if h_score ≥ 90 then "verified" else "likely"
      ((h_email, h_status),
       { cDom with discovered_email := h_email, email_status := h_status,
                   linkedin_url := if h_linkedin ≠ "" then h_linkedin
                                   else cDom.linkedin_url })
    | none =>
      if domain = "" then
        (("", "needs_manual"), { cDom with email_status := "needs_manual" })
      else
        match env.mx domain with
        | none => (("", "invalid"), { cDom with email_status := "invalid" })
        | some _mx_host =>
          let scraped := env.scrape c.website false
          let scraped :=
            if scraped = [] then
              let g := env.google c.company_name domain
              if g ≠ "" then [g] else []
            else scraped
          let fl := _parse_name c.contact_name
          let patterns :=
            if fl.1 ≠ "" then generate_email_variations fl.1 fl.2 domain false
            else []
          let all_candidates := scraped ++ patterns.filter (· ∉ scraped)
          discover_resolve env domain cDom scraped all_candidates

/-- The `bounced_emails` accumulator, parsed:
comma-split, stripped, empties dropped. -/
def bounced_set (s : String) : List String :=
  ((splitOnChar ',' s).map pyStrip).filter (· ≠ "")

/-- The tail of `rediscover_email` (lines 781–838): the no-candidate
check, catch-all detection, the probing loop, the pattern-score fallback,
and the final contact update. -/
def rediscover_resolve (env : DiscoveryEnv) (domain : String) (c : DContact)
    (all_candidates : List String) : (String × String) × DContact :=
  if all_candidates = [] then
    (("", "exhausted"), { c with email_status := "exhausted" })
  else
    let catch_all := is_catch_all env domain
    let best0 := probe_candidates env.probe catch_all all_candidates ("", "unknown")
    let best :=
      if best0.1 = "" then ((sortByScoreDesc all_candidates).headD "", "likely")
      else best0
    if best.1 ≠ "" then
      (best, { c with discovered_email := best.1, email_status := best.2,
                      outreach_status := "pending" })
    else
      ((best.1, best.2), { c with email_status := "exhausted" })

/-- `rediscover_email(contact_id)` on an existing contact: the deep
post-bounce pass — bounced addresses excluded, deep scrape and deep
pattern set, `exhausted` on failure, `outreach_status` reset on success. -/
def rediscover_email (env : DiscoveryEnv) (c : DContact) :
    (String × String) × DContact :=
  let domain := if c.domain ≠ "" then c.domain else _extract_domain c.website
  let bounced := bounced_set c.bounced_emails
  if domain = "" then
    (("", "exhausted"), { c with email_status := "exhausted" })
  else
    match env.mx domain with
    | none => (("", "exhausted"), { c with email_status := "exhausted" })
    | some _mx_host =>
      let scraped := env.scrape c.website true
      let fl := _parse_name c.contact_name
      let patterns :=
        if fl.1 ≠ "" then generate_email_variations fl.1 fl.2 domain true
        else []
      let all_candidates :=
        (scraped ++ patterns.filter (· ∉ scraped)).filter (· ∉ bounced)
      rediscover_resolve env domain c all_candidates

/-! ## Basic update/frame lemmas -/

/-- An id-targeted row update leaves any projection it preserves intact. -/
theorem map_updContact {β : Type} (proj : Contact → β) (cid : Nat)
    (f : Contact → Contact) (h : ∀ c, proj (f c) = proj c) :
    ∀ l : List Contact, (updContact cid f l).map proj = l.map proj := by
  intro l
  induction l with
  | nil => rfl
  | cons c t ih =>
    simp only [updContact, List.map_cons] at *
    rw [ih]
    by_cases hc : c.id == cid <;> simp [hc, h]

/-- Two updates targeting the same id compose, provided the first keeps
the id. -/
theorem updContact_updContact (cid : Nat) (f g : Contact → Contact)
    (hf : ∀ c, (f c).id = c.id) (l : List Contact) :
    updContact cid g (updContact cid f l) =
      updContact cid (fun c => g (f c)) l := by
  induction l with
  | nil => rfl
  | cons c t ih =>
    simp only [updContact, List.map_cons] at *
    rw [ih]
    by_cases hc : c.id == cid <;> simp [hc, hf]

theorem applyTransition_id (ns : String) (today days : Nat) (c : Contact) :
    (applyTransition ns today days c).id = c.id := by
  unfold applyTransition
  split_ifs <;> rfl

theorem applyTransition_status (ns : String) (today days : Nat) (c : Contact) :
    (applyTransition ns today days c).account_status = ns := by
  unfold applyTransition
  split_ifs <;> rfl

theorem applyTransition_na (ns : String) (today days : Nat) (c : Contact) :
    (applyTransition ns today days c).next_action =
      (if ns = "revisit" then "revisit_expiry"
       else if ns = "dnc" then "permanent_dnc" else c.next_action) := by
  unfold applyTransition
  split_ifs <;> rfl

theorem applyTransition_nad (ns : String) (today days : Nat) (c : Contact) :
    (applyTransition ns today days c).next_action_date =
      (if ns = "revisit" then some (today + days)
       else if ns = "dnc" then none else c.next_action_date) := by
  unfold applyTransition
  split_ifs <;> rfl

theorem applyTransition_ltd (ns : String) (today days : Nat) (c : Contact) :
    (applyTransition ns today days c).last_touch_date = some today := by
  unfold applyTransition
  split_ifs <;> rfl

/-- The confidence write never touches the touch log, and rewrites rows
only through a map that keeps every column but `confidence_score`. -/
theorem compute_confidence_touch_log (w : Weights) (now : Int) (db : DB)
    (cid : Nat) : (compute_confidence_score w now db cid).2.touch_log =
      db.touch_log := by
  unfold compute_confidence_score
  cases findContact db cid <;> rfl

theorem updContact_id_fun (cid : Nat) (l : List Contact) :
    updContact cid (fun c => c) l = l := by
  induction l with
  | nil => rfl
  | cons c t ih => simp only [updContact, List.map_cons] at *; rw [ih]; simp

/-- The confidence write is an id-targeted row rewrite that keeps every
lifecycle column. -/
theorem compute_confidence_contacts_spec (w : Weights) (now : Int) (db : DB)
    (cid : Nat) :
    ∃ h : Contact → Contact,
      (compute_confidence_score w now db cid).2.contacts =
        updContact cid h db.contacts ∧
      ∀ c, (h c).id = c.id ∧ (h c).account_status = c.account_status ∧
        (h c).next_action = c.next_action ∧
        (h c).next_action_date = c.next_action_date ∧
        (h c).last_touch_date = c.last_touch_date := by
  unfold compute_confidence_score
  cases hf : findContact db cid with
  | none =>
    exact ⟨fun c => c, (updContact_id_fun cid db.contacts).symm,
      fun c => ⟨rfl, rfl, rfl, rfl, rfl⟩⟩
  | some row =>
    exact ⟨fun c => { c with confidence_score := score_of_contact w now row },
      rfl, fun c => ⟨rfl, rfl, rfl, rfl, rfl⟩⟩

/-! ## Characterization of `transition_account_status` -/

/-- A failed transition performs no state mutation at all. -/
theorem transition_fail_spec (days : Nat) (w : Weights) (today : Nat)
    (now : Int) (db : DB) (cid : Nat) (ns notes : String)
    (hs : (transition_account_status days w today now db cid ns notes).1.success
      = false) :
    (transition_account_status days w today now db cid ns notes).2 = db := by
  unfold transition_account_status at *
  cases hf : findContact db cid with
  | none => simp
  | some row =>
    rw [hf] at hs
    by_cases hdnc : effStatus row.account_status = "dnc"
    · simp [hdnc]
    · by_cases hmem : ns ∈ VALID_TRANSITIONS (effStatus row.account_status)
      · simp [hdnc, hmem] at hs
      · simp [hdnc, hmem]

/-- A transition succeeds exactly when the contact exists, is not DNC, and
the edge is in the table. -/
theorem transition_success_char (days : Nat) (w : Weights) (today : Nat)
    (now : Int) (db : DB) (cid : Nat) (ns notes : String) :
    (transition_account_status days w today now db cid ns notes).1.success
        = true ↔
      ∃ row, findContact db cid = some row ∧
        effStatus row.account_status ≠ "dnc" ∧
        ns ∈ VALID_TRANSITIONS (effStatus row.account_status) := by
  unfold transition_account_status
  cases hf : findContact db cid with
  | none => simp
  | some row =>
    by_cases hdnc : effStatus row.account_status = "dnc"
    · simp [hdnc]
    · by_cases hmem : ns ∈ VALID_TRANSITIONS (effStatus row.account_status)
      · simp [hdnc, hmem]
      · simp [hdnc, hmem]

/-- What a successful transition does to the store: one appended touch
row, and a row rewrite of the targeted id whose effect on the lifecycle
columns is exactly that of the Python `updates` dict. -/
theorem transition_success_spec (days : Nat) (w : Weights) (today : Nat)
    (now : Int) (db : DB) (cid : Nat) (ns notes : String)
    (hs : (transition_account_status days w today now db cid ns notes).1.success
      = true) :
    ∃ row g, findContact db cid = some row ∧
      (transition_account_status days w today now db cid ns notes).2.touch_log
        = db.touch_log ++
          [transTouch cid (effStatus row.account_status) ns notes today] ∧
      (transition_account_status days w today now db cid ns notes).2.contacts
        = updContact cid g db.contacts ∧
      (∀ c, (g c).id = c.id) ∧ (∀ c, (g c).account_status = ns) ∧
      (∀ c, (g c).next_action =
        (if ns = "revisit" then "revisit_expiry"
         else if ns = "dnc" then "permanent_dnc" else c.next_action)) ∧
      (∀ c, (g c).next_action_date =
        (if ns = "revisit" then some (today + days)
         else if ns = "dnc" then none else c.next_action_date)) ∧
      (∀ c, (g c).last_touch_date = some today) := by
  unfold transition_account_status at *
  cases hf : findContact db cid with
  | none => rw [hf] at hs; simp at hs
  | some row =>
    rw [hf] at hs
    by_cases hdnc : effStatus row.account_status = "dnc"
    · simp [hdnc] at hs
    · by_cases hmem : ns ∈ VALID_TRANSITIONS (effStatus row.account_status)
      · refine ⟨row, ?_⟩
        simp only [if_neg hdnc, if_pos hmem]
        obtain ⟨h, hc, hprops⟩ := compute_confidence_contacts_spec w now
          { contacts := updContact cid (applyTransition ns today days)
              db.contacts,
            touch_log := db.touch_log ++
              [transTouch cid (effStatus row.account_status) ns notes today] }
          cid
        refine ⟨fun c => h (applyTransition ns today days c), trivial,
          ?_, ?_, ?_, ?_, ?_, ?_, ?_⟩
        · rw [compute_confidence_touch_log]
        · rw [hc, updContact_updContact cid _ _
            (fun c => applyTransition_id ns today days c)]
        · intro c; rw [(hprops _).1, applyTransition_id]
        · intro c; rw [(hprops _).2.1, applyTransition_status]
        · intro c; rw [(hprops _).2.2.1, applyTransition_na]
        · intro c; rw [(hprops _).2.2.2.1, applyTransition_nad]
        · intro c; rw [(hprops _).2.2.2.2, applyTransition_ltd]
      · simp [hdnc, hmem] at hs

/-! ## The scoring factors as a set of flags -/

/-- The ten boolean scoring factors of §4.2, as read off a contact row.
`emailVerified` and `emailLikely` test the same column against different
literals, so a row can never have both. -/
structure Factors where
  emailVerified : Bool
  emailLikely : Bool
  decisionMaker : Bool
  websiteExists : Bool
  phoneExists : Bool
  highValueTier : Bool
  hasNewsSignal : Bool
  accountEngaged : Bool
  hadOpens : Bool
  recentSend : Bool
deriving DecidableEq, Repr

/-- The factor flags of a contact row. -/
def factorsOf (now : Int) (c : Contact) : Factors :=
  { emailVerified := decide (c.email_status = "verified"),
    emailLikely := decide (c.email_status = "likely"),
    decisionMaker := decide (c.decision_maker_found ∨
      (c.contact_name ≠ "" ∧ c.title_role ≠ "")),
    websiteExists := decide (c.website ≠ ""),
    phoneExists := decide (c.phone ≠ ""),
    highValueTier := decide (c.tier = "A" ∨ c.tier = "HOT"),
    hasNewsSignal := decide (c.signal_count > 0),
    accountEngaged := decide (effStatus c.account_status = "engaged" ∨
      effStatus c.account_status = "qualified" ∨
      effStatus c.account_status = "partnered"),
    hadOpens := decide (c.has_opens > 0),
    recentSend := recentActivity now c.last_sent }

/-- `f.Le g`: every factor true in `f` is true in `g` (the factor set of
`f` is a subset of that of `g`). -/
def Factors.Le (f g : Factors) : Prop :=
  (f.emailVerified → g.emailVerified) ∧ (f.emailLikely → g.emailLikely) ∧
  (f.decisionMaker → g.decisionMaker) ∧ (f.websiteExists → g.websiteExists) ∧
  (f.phoneExists → g.phoneExists) ∧ (f.highValueTier → g.highValueTier) ∧
  (f.hasNewsSignal → g.hasNewsSignal) ∧ (f.accountEngaged → g.accountEngaged) ∧
  (f.hadOpens → g.hadOpens) ∧ (f.recentSend → g.recentSend)

instance : DecidablePred (fun p : Factors × Factors => p.1.Le p.2) := by
  intro p
  unfold Factors.Le
  infer_instance

/-- All ten weights nonnegative. -/
def Weights.Nonneg (w : Weights) : Prop :=
  0 ≤ w.email_verified ∧ 0 ≤ w.email_likely ∧ 0 ≤ w.decision_maker_found ∧
  0 ≤ w.website_exists ∧ 0 ≤ w.phone_exists ∧ 0 ≤ w.high_value_tier ∧
  0 ≤ w.has_news_signal ∧ 0 ≤ w.account_engaged ∧ 0 ≤ w.has_opens ∧
  0 ≤ w.recent_activity

/-- One conditional-add step of the scorer is monotone in both the flag
and the accumulator, for a nonnegative weight. -/
theorem addIf_mono {s s' weight : Int} {P Q : Prop} [Decidable P]
    [Decidable Q] (hw : 0 ≤ weight) (hs : s ≤ s') (h : P → Q) :
    (if P then s + weight else s) ≤ (if Q then s' + weight else s') := by
  by_cases hP : P
  · rw [if_pos hP, if_pos (h hP)]
    omega
  · by_cases hQ : Q <;> simp [hP, hQ] <;> omega

/-- The email step (a two-branch conditional add over mutually exclusive
flags) is monotone. -/
theorem addIfEmail_mono {s s' wv wl : Int} {V L V' L' : Prop} [Decidable V]
    [Decidable L] [Decidable V'] [Decidable L'] (hwv : 0 ≤ wv)
    (hwl : 0 ≤ wl) (hs : s ≤ s') (hV : V → V') (hL : L → L')
    (hmx : ¬(V' ∧ L')) :
    (if V then s + wv else if L then s + wl else s) ≤
      (if V' then s' + wv else if L' then s' + wl else s') := by
  by_cases hV1 : V <;> by_cases hL1 : L <;> by_cases hV2 : V' <;>
    by_cases hL2 : L' <;> simp_all <;> omega

theorem clamp_mono {a b : Int} (h : a ≤ b) :
    max 0 (min 100 a) ≤ max 0 (min 100 b) :=
  max_le_max le_rfl (min_le_min le_rfl h)

/-! ## Concrete fixtures for witnesses -/

/-- The default weight configuration documented in the spec (§4.2). -/
def defaultWeights : Weights :=
  { email_verified := 20, email_likely := 10, decision_maker_found := 15,
    website_exists := 10, phone_exists := 10, high_value_tier := 10,
    has_news_signal := 10, account_engaged := 10, has_opens := 5,
    recent_activity := 10 }

/-- A blank contact row used as the base of the concrete examples. -/
def baseContact : Contact :=
  { id := 1, account_status := "cold", next_action := "",
    next_action_date := none, last_touch_date := none, confidence_score := 0,
    email_status := "", decision_maker_found := false, contact_name := "",
    title_role := "", website := "", phone := "", tier := "",
    signal_count := 0, has_opens := 0, last_sent := none }

def dncContact : Contact :=
  { baseContact with id := 7, account_status := "dnc",
                     next_action := "permanent_dnc" }

def dncDB : DB := { contacts := [dncContact], touch_log := [] }

def coldDB : DB := { contacts := [baseContact], touch_log := [] }

/-- A contact with a strict superset of `baseContact`'s (empty) factor
set. -/
def richContact : Contact :=
  { baseContact with
    account_status := "engaged", email_status := "verified",
    decision_maker_found := true, contact_name := "Ann Lee",
    title_role := "Owner", website := "https://a.co", phone := "555",
    tier := "A", signal_count := 1, has_opens := 1, last_sent := some 0 }

/-! ## Claim theorems -/

/-- C2: once a contact's `account_status` is `dnc`, every
`transition_account_status` call on it — whatever the target status —
fails and leaves the store unchanged; in particular `mark_dnc` on an
already-DNC contact is a no-op failure, so `dnc` is preserved by every
operation once entered. -/
theorem dnc_is_permanent (days : Nat) (w : Weights) (today : Nat) (now : Int)
    (db : DB) (cid : Nat) (row : Contact) (new_status notes reason : String)
    (hfind : findContact db cid = some row)
    (hdnc : effStatus row.account_status = "dnc") :
    (transition_account_status days w today now db cid new_status notes).1.success
        = false ∧
    (transition_account_status days w today now db cid new_status notes).2 = db ∧
    (mark_dnc days w today now db cid reason).1.success = false ∧
    (mark_dnc days w today now db cid reason).2 = db := by
  unfold mark_dnc transition_account_status
  rw [hfind]
  simp [hdnc]

/-- Witness for C2 at a concrete DNC contact and target `contacted`. -/
theorem dnc_is_permanent_witness :
    (transition_account_status 30 defaultWeights 100 100 dncDB 7 "contacted"
      "n").1.success = false ∧
    (transition_account_status 30 defaultWeights 100 100 dncDB 7 "contacted"
      "n").2 = dncDB ∧
    (mark_dnc 30 defaultWeights 100 100 dncDB 7 "spam").1.success = false ∧
    (mark_dnc 30 defaultWeights 100 100 dncDB 7 "spam").2 = dncDB :=
  dnc_is_permanent 30 defaultWeights 100 100 dncDB 7 dncContact "contacted"
    "n" "spam" rfl rfl

/-- C3: for an existing contact, any `(from, to)` pair outside the
`VALID_TRANSITIONS` table makes `transition_account_status` return a
failure result and perform no state mutation whatsoever (the returned
store is the input store: no column change and no appended touch row). -/
theorem invalid_transition_rejected (days : Nat) (w : Weights) (today : Nat)
    (now : Int) (db : DB) (cid : Nat) (row : Contact) (new_status notes : String)
    (hfind : findContact db cid = some row)
    (hns : new_status ∉ VALID_TRANSITIONS (effStatus row.account_status)) :
    (transition_account_status days w today now db cid new_status notes).1.success
        = false ∧
    (transition_account_status days w today now db cid new_status notes).2
        = db := by
  unfold transition_account_status
  rw [hfind]
  by_cases hdnc : effStatus row.account_status = "dnc"
  · simp [hdnc]
  · simp [hdnc, hns]

/-- Witness for C3: `cold → partnered` is not an edge of the table. -/
theorem invalid_transition_rejected_witness :
    (transition_account_status 30 defaultWeights 100 100 coldDB 1 "partnered"
      "n").1.success = false ∧
    (transition_account_status 30 defaultWeights 100 100 coldDB 1 "partnered"
      "n").2 = coldDB :=
  invalid_transition_rejected 30 defaultWeights 100 100 coldDB 1 baseContact
    "partnered" "n" rfl (by decide)

/-- C7: for nonnegative weights the scorer always lands in `[0, 100]`,
the value `compute_confidence_score` returns is the value it writes into
the targeted row's `confidence_score`, and enlarging a contact's set of
true scoring factors (weights fixed) never decreases the score. -/
theorem confidence_score_bounds_and_monotone (w : Weights) (now : Int)
    (db : DB) (cid : Nat) (row c1 c2 : Contact) (hw : w.Nonneg) :
    (0 ≤ score_of_contact w now c1 ∧ score_of_contact w now c1 ≤ 100) ∧
    (findContact db cid = some row →
      (compute_confidence_score w now db cid).1 = score_of_contact w now row ∧
      ∀ c' ∈ (compute_confidence_score w now db cid).2.contacts, c'.id = cid →
        c'.confidence_score = (compute_confidence_score w now db cid).1) ∧
    ((factorsOf now c1).Le (factorsOf now c2) →
      score_of_contact w now c1 ≤ score_of_contact w now c2) := by
  obtain ⟨hw1, hw2, hw3, hw4, hw5, hw6, hw7, hw8, hw9, hw10⟩ := hw
  refine ⟨⟨le_max_left 0 _, max_le (by norm_num) (min_le_left 100 _)⟩,
    ?_, ?_⟩
  · intro hfind
    unfold compute_confidence_score
    rw [hfind]
    refine ⟨rfl, ?_⟩
    intro c' hc' hid
    simp only [updContact, List.mem_map] at hc'
    obtain ⟨c, _, hc⟩ := hc'
    by_cases h : c.id == cid
    · rw [if_pos h] at hc
      rw [← hc]
    · rw [if_neg h] at hc
      rw [← hc] at hid
      simp [hid] at h
  · intro hle
    obtain ⟨l1, l2, l3, l4, l5, l6, l7, l8, l9, l10⟩ := hle
    simp only [factorsOf, decide_eq_true_eq] at l1 l2 l3 l4 l5 l6 l7 l8 l9 l10
    have hmx : ¬(c2.email_status = "verified" ∧ c2.email_status = "likely") := by
      rintro ⟨h1, h2⟩
      rw [h1] at h2
      simp at h2
    unfold score_of_contact
    exact clamp_mono (addIf_mono hw10 (addIf_mono hw9 (addIf_mono hw8
      (addIf_mono hw7 (addIf_mono hw6 (addIf_mono hw5 (addIf_mono hw4
      (addIf_mono hw3 (addIfEmail_mono hw1 hw2 le_rfl l1 l2 hmx) l3) l4)
      l5) l6) l7) l8) l9) l10)

/-- Witness for C7 at the default weights, an empty-factor contact, and a
full-factor contact. -/
theorem confidence_score_bounds_and_monotone_witness :
    (0 ≤ score_of_contact defaultWeights 0 baseContact ∧
      score_of_contact defaultWeights 0 baseContact ≤ 100) ∧
    ((compute_confidence_score defaultWeights 0 coldDB 1).1 =
        score_of_contact defaultWeights 0 baseContact ∧
      ∀ c' ∈ (compute_confidence_score defaultWeights 0 coldDB 1).2.contacts,
        c'.id = 1 →
        c'.confidence_score = (compute_confidence_score defaultWeights 0 coldDB 1).1) ∧
    score_of_contact defaultWeights 0 baseContact ≤
      score_of_contact defaultWeights 0 richContact := by
  have h := confidence_score_bounds_and_monotone defaultWeights 0 coldDB 1
    baseContact baseContact richContact
    (by unfold Weights.Nonneg; decide)
  exact ⟨h.1, h.2.1 rfl, h.2.2 (by unfold Factors.Le; decide)⟩

theorem outbound_count_append (tl l2 : List Touch) (cid : Nat) :
    outbound_count (tl ++ l2) cid =
      outbound_count tl cid + outbound_count l2 cid := by
  simp [outbound_count, List.filter_append]

/-- C9: `on_email_sent` on a cold contact appends exactly two touch rows —
the `cold → contacted` status touch of the validated transition and the
hook's unconditional `Email sent` touch — both outbound email rows for
this contact, so the outbound count that `enforce_no_reply_revisit` keys
on rises by exactly two. -/
theorem on_email_sent_logs_two_outbound (days : Nat) (w : Weights)
    (today : Nat) (now : Int) (db : DB) (cid b : Nat) (row : Contact)
    (hfind : findContact db cid = some row)
    (hcold : effStatus row.account_status = "cold") :
    ∃ t1 t2 : Touch,
      (on_email_sent days w today now db cid b).touch_log =
        db.touch_log ++ [t1, t2] ∧
      t1.contact_id = cid ∧ t1.channel = "email" ∧
      t1.direction = "outbound" ∧
      t2.contact_id = cid ∧ t2.channel = "email" ∧
      t2.direction = "outbound" ∧
      outbound_count (on_email_sent days w today now db cid b).touch_log cid =
        outbound_count db.touch_log cid + 2 := by
  have hsucc : (transition_account_status days w today now db cid "contacted"
      ("First email sent (bundle #" ++ toString b ++ ")")).1.success = true := by
    rw [transition_success_char]
    refine ⟨row, hfind, ?_, ?_⟩
    · rw [hcold]; decide
    · rw [hcold]; decide
  obtain ⟨row', g, hfind', htl, _, _⟩ :=
    transition_success_spec days w today now db cid "contacted"
      ("First email sent (bundle #" ++ toString b ++ ")") hsucc
  rw [hfind] at hfind'
  injection hfind' with hrow
  subst hrow
  refine ⟨transTouch cid "cold" "contacted"
      ("First email sent (bundle #" ++ toString b ++ ")") today,
    { contact_id := cid, channel := "email", direction := "outbound",
      subject := "Email sent", notes := "bundle_id=" ++ toString b,
      touch_date := today }, ?_, rfl, rfl, rfl, rfl, rfl, rfl, ?_⟩
  · unfold on_email_sent
    rw [hfind]
    rw [hcold] at htl
    simp [hcold, htl]
  · unfold on_email_sent
    rw [hfind]
    rw [hcold] at htl
    simp [hcold, htl, outbound_count_append, outbound_count, transTouch]

/-- Witness for C9 on the concrete cold store. -/
theorem on_email_sent_logs_two_outbound_witness :
    ∃ t1 t2 : Touch,
      (on_email_sent 30 defaultWeights 100 100 coldDB 1 5).touch_log =
        coldDB.touch_log ++ [t1, t2] ∧
      t1.contact_id = 1 ∧ t1.channel = "email" ∧ t1.direction = "outbound" ∧
      t2.contact_id = 1 ∧ t2.channel = "email" ∧ t2.direction = "outbound" ∧
      outbound_count (on_email_sent 30 defaultWeights 100 100 coldDB 1 5).touch_log 1 =
        outbound_count coldDB.touch_log 1 + 2 :=
  on_email_sent_logs_two_outbound 30 defaultWeights 100 100 coldDB 1 5
    baseContact rfl rfl

/-! ## Discovery lemmas -/

/-- The probing loop only ever answers with a candidate from the list (or
with the accumulator it started from). -/
theorem probe_candidates_mem (probe : String → Option Bool) (ca : Bool) :
    ∀ (l : List String) (acc : String × String),
      (probe_candidates probe ca l acc).1 = acc.1 ∨
      (probe_candidates probe ca l acc).1 ∈ l := by
  intro l
  induction l with
  | nil => intro acc; left; rfl
  | cons e rest ih =>
    intro acc
    unfold probe_candidates
    by_cases hv : validate_syntax e = false
    · rw [if_pos hv]
      rcases ih acc with h | h
      · left; exact h
      · right; exact List.mem_cons_of_mem _ h
    · rw [if_neg hv]
      cases probe e with
      | none =>
        by_cases hb : acc.1 = ""
        · rw [if_pos hb]
          rcases ih (e, "likely") with h | h
          · right; rw [h]; exact List.mem_cons_self _ _
          · right; exact List.mem_cons_of_mem _ h
        · rw [if_neg hb]
          rcases ih acc with h | h
          · left; exact h
          · right; exact List.mem_cons_of_mem _ h
      | some b =>
        cases b with
        | true =>
          cases ca <;> simp
        | false =>
          rcases ih acc with h | h
          · left; exact h
          · right; exact List.mem_cons_of_mem _ h

/-- On a catch-all domain the probing loop never upgrades the status
beyond `likely`. -/
theorem probe_candidates_catchall (probe : String → Option Bool) :
    ∀ (l : List String) (acc : String × String),
      (probe_candidates probe true l acc).2 = acc.2 ∨
      (probe_candidates probe true l acc).2 = "likely" := by
  intro l
  induction l with
  | nil => intro acc; left; rfl
  | cons e rest ih =>
    intro acc
    unfold probe_candidates
    by_cases hv : validate_syntax e = false
    · rw [if_pos hv]; exact ih acc
    · rw [if_neg hv]
      cases probe e with
      | none =>
        by_cases hb : acc.1 = ""
        · rw [if_pos hb]
          rcases ih (e, "likely") with h | h
          · right; exact h
          · right; exact h
        · rw [if_neg hb]; exact ih acc
      | some b =>
        cases b with
        | true => right; rfl
        | false => exact ih acc

theorem bounced_set_no_empty (s : String) : "" ∉ bounced_set s := by
  intro h
  unfold bounced_set at h
  rw [List.mem_filter] at h
  simp at h

/-- The head of the pattern-score sort is drawn from the candidate list. -/
theorem sortByScoreDesc_headD_mem {l : List String} (hl : l ≠ []) :
    (sortByScoreDesc l).headD "" ∈ l := by
  have hperm : (sortByScoreDesc l).Perm l := List.mergeSort_perm l _
  cases hs : sortByScoreDesc l with
  | nil =>
    rw [hs] at hperm
    exact absurd (hperm.symm.eq_nil) hl
  | cons a t =>
    rw [hs] at hperm
    exact hperm.mem_iff.mp (by simp)

/-- The pattern-score fallback of `rediscover_email` picks its answer
from the bounce-filtered candidate list, so it is never a bounced
address. -/
theorem sort_head_filter_not_bounced (base bounced : List String)
    (hne : base.filter (· ∉ bounced) ≠ []) :
    (sortByScoreDesc (base.filter (· ∉ bounced))).headD "" ∉ bounced := by
  intro hmem
  have hm := sortByScoreDesc_headD_mem hne
  rw [List.mem_filter] at hm
  exact absurd hmem (by simpa using hm.2)

/-- The probing loop of `rediscover_email`, run on the bounce-filtered
candidate list, never answers with a bounced address. -/
theorem probe_result_filter_not_bounced (probe : String → Option Bool)
    (ca : Bool) (base bounced : List String)
    (h0 : (probe_candidates probe ca (base.filter (· ∉ bounced))
      ("", "unknown")).1 ≠ "") :
    (probe_candidates probe ca (base.filter (· ∉ bounced))
      ("", "unknown")).1 ∉ bounced := by
  rcases probe_candidates_mem probe ca (base.filter (· ∉ bounced))
    ("", "unknown") with h | h
  · exact absurd h h0
  · rw [List.mem_filter] at h
    intro hmem
    exact absurd hmem (by simpa using h.2)

/-- `rediscover_resolve`, run on a bounce-filtered candidate list, never
answers with a bounced address, and writes `discovered_email` only with
that answer. -/
theorem rediscover_resolve_not_bounced (env : DiscoveryEnv) (domain : String)
    (c : DContact) (base bounced : List String) (hemp : "" ∉ bounced) :
    (rediscover_resolve env domain c (base.filter (· ∉ bounced))).1.1 ∉ bounced ∧
    ((rediscover_resolve env domain c
        (base.filter (· ∉ bounced))).2.discovered_email = c.discovered_email ∨
     (rediscover_resolve env domain c
        (base.filter (· ∉ bounced))).2.discovered_email =
       (rediscover_resolve env domain c (base.filter (· ∉ bounced))).1.1) := by
  unfold rediscover_resolve
  by_cases hc : base.filter (· ∉ bounced) = []
  · rw [if_pos hc]
    exact ⟨hemp, Or.inl rfl⟩
  · rw [if_neg hc]
    by_cases h0 : (probe_candidates env.probe (is_catch_all env domain)
        (base.filter (· ∉ bounced)) ("", "unknown")).1 = ""
    · simp only [h0, if_pos]
      split
      · exact ⟨sort_head_filter_not_bounced _ _ hc, Or.inr rfl⟩
      · rename_i hh
        push_neg at hh
        refine ⟨?_, Or.inl rfl⟩
        rw [hh]
        exact hemp
    · simp only [if_neg h0]
      rw [if_pos h0]
      exact ⟨probe_result_filter_not_bounced _ _ _ _ h0, Or.inr rfl⟩

/-- C6: `rediscover_email` never returns — nor writes into
`discovered_email` — an address recorded in the contact's
`bounced_emails` set, whatever the probe outcomes and pattern scores:
every candidate list it draws from is pre-filtered against the set, and
the exhausted paths leave `discovered_email` untouched. -/
theorem rediscover_excludes_bounced (env : DiscoveryEnv) (c : DContact) :
    (rediscover_email env c).1.1 ∉ bounced_set c.bounced_emails ∧
    ((rediscover_email env c).2.discovered_email = c.discovered_email ∨
     (rediscover_email env c).2.discovered_email =
       (rediscover_email env c).1.1) := by
  unfold rediscover_email
  simp only []
  by_cases hd : (if c.domain ≠ "" then c.domain else _extract_domain c.website)
      = ""
  · rw [if_pos hd]
    exact ⟨bounced_set_no_empty _, Or.inl rfl⟩
  · rw [if_neg hd]
    cases hmx : env.mx
        (if c.domain ≠ "" then c.domain else _extract_domain c.website) with
    | none => exact ⟨bounced_set_no_empty _, Or.inl rfl⟩
    | some h =>
      exact rediscover_resolve_not_bounced env _ c _ _ (bounced_set_no_empty _)

/-- On a catch-all domain the resolution stage of `discover_email` never
produces `verified`, neither as a return value nor as the written
`email_status`. -/
theorem discover_resolve_not_verified (env : DiscoveryEnv) (domain : String)
    (cDom : DContact) (scraped cands : List String)
    (hca : is_catch_all env domain = true) :
    (discover_resolve env domain cDom scraped cands).1.2 ≠ "verified" ∧
    (discover_resolve env domain cDom scraped cands).2.email_status
      ≠ "verified" := by
  unfold discover_resolve
  by_cases hc : cands = []
  · rw [if_pos hc]
    exact ⟨by simp, by simp⟩
  · rw [if_neg hc]
    rw [hca]
    by_cases hb : (probe_candidates env.probe true cands ("", "unknown")).1 = ""
    · simp only [hb, if_pos]
      split
      · exact ⟨by simp, by simp⟩
      · exact ⟨by simp, by simp⟩
    · rw [if_neg hb]
      rcases probe_candidates_catchall env.probe cands ("", "unknown") with h | h
      · exact ⟨by simp [h], by simp [h]⟩
      · exact ⟨by simp [h], by simp [h]⟩

/-- On a catch-all domain the resolution stage of `rediscover_email`
never produces `verified` either. -/
theorem rediscover_resolve_not_verified (env : DiscoveryEnv) (domain : String)
    (c : DContact) (cands : List String)
    (hca : is_catch_all env domain = true) :
    (rediscover_resolve env domain c cands).1.2 ≠ "verified" ∧
    (rediscover_resolve env domain c cands).2.email_status ≠ "verified" := by
  unfold rediscover_resolve
  by_cases hc : cands = []
  · rw [if_pos hc]
    exact ⟨by simp, by simp⟩
  · rw [if_neg hc]
    rw [hca]
    by_cases h0 : (probe_candidates env.probe true cands ("", "unknown")).1 = ""
    · simp only [h0, if_pos]
      split
      · exact ⟨by simp, by simp⟩
      · exact ⟨by simp, by simp⟩
    · simp only [if_neg h0]
      rw [if_pos h0]
      rcases probe_candidates_catchall env.probe cands ("", "unknown") with h | h
      · exact ⟨by simp [h], by simp [h]⟩
      · exact ⟨by simp [h], by simp [h]⟩

/-- C5: on a domain whose catch-all probe succeeds, a definite-accept
SMTP probe can only ever classify a candidate as `likely`, never
`verified` — in the shared probing loop, in `discover_email` (absent the
authoritative pre-resolved/Hunter short-circuits, which do not probe) and
in `rediscover_email`, for both the returned status and the written
`email_status`. -/
theorem catch_all_probe_yields_likely (probe : String → Option Bool)
    (l : List String) (acc : String × String) (env : DiscoveryEnv)
    (c cr : DContact) (hacc : acc.2 ≠ "verified")
    (hk : env.hunter_api_key = "") (hpre : c.email_status ≠ "verified")
    (hca : is_catch_all env
      (if c.domain ≠ "" then c.domain else _extract_domain c.website) = true)
    (hcar : is_catch_all env
      (if cr.domain ≠ "" then cr.domain else _extract_domain cr.website)
      = true) :
    (probe_candidates probe true l acc).2 ≠ "verified" ∧
    ((discover_email env c).1.2 ≠ "verified" ∧
     (discover_email env c).2.email_status ≠ "verified") ∧
    ((rediscover_email env cr).1.2 ≠ "verified" ∧
     (rediscover_email env cr).2.email_status ≠ "verified") := by
  refine ⟨?_, ?_, ?_⟩
  · rcases probe_candidates_catchall probe l acc with h | h
    · rw [h]; exact hacc
    · simp [h]
  · unfold discover_email
    simp only []
    by_cases h1 : c.discovered_email ≠ "" ∧
        (c.email_status = "verified" ∨ c.email_status = "likely")
    · rw [if_pos h1]
      exact ⟨hpre, hpre⟩
    · rw [if_neg h1]
      have hh : ¬(env.hunter_api_key ≠ "" ∧
          (if c.domain ≠ "" then c.domain else _extract_domain c.website) ≠ "" ∧
          (c.tier = "A" ∨ c.csv_source = "field_intel")) := by
        simp [hk]
      rw [if_neg hh]
      simp only []
      by_cases hd0 : (if c.domain ≠ "" then c.domain
          else _extract_domain c.website) = ""
      · rw [if_pos hd0]
        exact ⟨by simp, by simp⟩
      · rw [if_neg hd0]
        cases hmx : env.mx
            (if c.domain ≠ "" then c.domain else _extract_domain c.website) with
        | none => exact ⟨by simp, by simp⟩
        | some h => exact discover_resolve_not_verified env _ _ _ _ hca
  · unfold rediscover_email
    simp only []
    by_cases hd0 : (if cr.domain ≠ "" then cr.domain
        else _extract_domain cr.website) = ""
    · rw [if_pos hd0]
      exact ⟨by simp, by simp⟩
    · rw [if_neg hd0]
      cases hmx : env.mx
          (if cr.domain ≠ "" then cr.domain else _extract_domain cr.website) with
      | none => exact ⟨by simp, by simp⟩
      | some h => exact rediscover_resolve_not_verified env _ _ _ hcar

/-- A discovery-pending contact with a known domain and a parseable
name. -/
def pendingContact : DContact :=
  { website := "", contact_name := "John Smith", company_name := "Acme Movers",
    domain := "example.com", discovered_email := "", email_status := "pending",
    tier := "", csv_source := "", bounced_emails := "", outreach_status := "",
    linkedin_url := "" }

/-- An environment whose domain resolves, scraping and search find
nothing, and every SMTP probe is inconclusive (`None`). -/
def envAllInconclusive : DiscoveryEnv :=
  { mx := fun _ => some "mx.example.com", probe := fun _ => none,
    scrape := fun _ _ => [], google := fun _ _ => "",
    hunter_api_key := "", hunter := fun _ _ _ => none }

/-- An environment whose mail server accepts every RCPT-TO probe, i.e. a
catch-all domain. -/
def envCatchAll : DiscoveryEnv :=
  { mx := fun _ => some "mx.example.com", probe := fun _ => some true,
    scrape := fun _ _ => [], google := fun _ _ => "",
    hunter_api_key := "", hunter := fun _ _ _ => none }

/-- Witness for C5 on the concrete catch-all environment. -/
theorem catch_all_probe_yields_likely_witness :
    (probe_candidates (fun _ => some true) true ["john@example.com"]
      ("", "unknown")).2 ≠ "verified" ∧
    ((discover_email envCatchAll pendingContact).1.2 ≠ "verified" ∧
     (discover_email envCatchAll pendingContact).2.email_status ≠ "verified") ∧
    ((rediscover_email envCatchAll pendingContact).1.2 ≠ "verified" ∧
     (rediscover_email envCatchAll pendingContact).2.email_status
       ≠ "verified") :=
  catch_all_probe_yields_likely (fun _ => some true) ["john@example.com"]
    ("", "unknown") envCatchAll pendingContact pendingContact (by decide) rfl
    (by decide) (by decide) (by decide)

/-- C1 (code-bug evidence): a contact with a valid MX record, zero
scraped emails, zero search-engine hits, a non-empty generated pattern
list, and every SMTP probe inconclusive (`None`).  The spec, the
function's docstring ("flags the contact as needs_manual instead of
guessing a pattern email") and the inline no-guess comment all demand
`needs_manual` here; the code instead keeps the first inconclusive
pattern as a tentative best (`if result is None and not best_email`),
so the needs-manual fallback is unreachable and the raw guess
`john@example.com` is returned and written back as `likely`. -/
theorem discover_email_guesses_on_inconclusive :
    discover_email envAllInconclusive pendingContact =
      (("john@example.com", "likely"),
       { pendingContact with discovered_email := "john@example.com",
                             email_status := "likely" }) ∧
    envAllInconclusive.mx pendingContact.domain = some "mx.example.com" ∧
    envAllInconclusive.scrape pendingContact.website false = [] ∧
    envAllInconclusive.google pendingContact.company_name
      pendingContact.domain = "" ∧
    generate_email_variations "John" "Smith" "example.com" false ≠ [] ∧
    ∀ e, envAllInconclusive.probe e = none :=
  ⟨rfl, rfl, rfl, rfl, by decide, fun _ => rfl⟩

/-- C4 (counterexample): `run_account_maintenance` has no per-sub-step
error handling — when the first sub-step raises, the orchestrator (the
straight-line call sequence `run_account_maintenance_steps`) propagates
the error: the remaining sub-steps never run and no
`{recalculated, reactivated, parked}` result is returned, contrary to the
claim. -/
theorem run_maintenance_propagates_error :
    run_account_maintenance_steps (fun _ => Except.error "db locked")
      (fun d => Except.ok (enforce_revisit_expiry 30 defaultWeights 100 100 d))
      (fun d => Except.ok (enforce_no_reply_revisit 30 defaultWeights 100 100 d))
      coldDB = Except.error "db locked" ∧
    ¬ ∃ r, run_account_maintenance_steps (fun _ => Except.error "db locked")
      (fun d => Except.ok (enforce_revisit_expiry 30 defaultWeights 100 100 d))
      (fun d => Except.ok (enforce_no_reply_revisit 30 defaultWeights 100 100 d))
      coldDB = Except.ok r := by
  refine ⟨rfl, ?_⟩
  rintro ⟨r, h⟩
  simp [run_account_maintenance_steps] at h

/-- C4 (amended): a raising sub-step makes `run_account_maintenance`
propagate that error unchanged — whichever of the three sub-steps it is —
skipping the remaining sub-steps; error isolation lives in the callers
(`daily_run.step_account_maintenance`, which catches the exception and
falls back to `{}`), while with non-raising sub-steps the orchestrator is
exactly the pure composition of the three jobs. -/
theorem run_maintenance_error_propagation (e : String)
    (recalc expiry noreply : DB → Except String (Nat × DB)) (db : DB)
    (days : Nat) (w : Weights) (today : Nat) (now : Int) :
    (recalc db = Except.error e →
      run_account_maintenance_steps recalc expiry noreply db
        = Except.error e) ∧
    (∀ r, recalc db = Except.ok r → expiry r.2 = Except.error e →
      run_account_maintenance_steps recalc expiry noreply db
        = Except.error e) ∧
    (∀ r a, recalc db = Except.ok r → expiry r.2 = Except.ok a →
      noreply a.2 = Except.error e →
      run_account_maintenance_steps recalc expiry noreply db
        = Except.error e) ∧
    step_account_maintenance (Except.error e) = none ∧
    run_account_maintenance_steps
      (fun d => Except.ok (batch_recalculate_confidence w now d))
      (fun d => Except.ok (enforce_revisit_expiry days w today now d))
      (fun d => Except.ok (enforce_no_reply_revisit days w today now d)) db
      = Except.ok (run_account_maintenance days w today now db) :=
  ⟨fun h => by simp [run_account_maintenance_steps, h],
   fun r h1 h2 => by simp [run_account_maintenance_steps, h1, h2],
   fun r a h1 h2 h3 => by simp [run_account_maintenance_steps, h1, h2, h3],
   rfl, rfl⟩

/-- Witness for the amended C4 at a concrete failing second sub-step. -/
theorem run_maintenance_error_propagation_witness :
    run_account_maintenance_steps
      (fun d => Except.ok (batch_recalculate_confidence defaultWeights 100 d))
      (fun _ => Except.error "disk full")
      (fun d => Except.ok (enforce_no_reply_revisit 30 defaultWeights 100 100 d))
      coldDB = Except.error "disk full" ∧
    step_account_maintenance (Except.error "disk full") = none :=
  ⟨(run_maintenance_error_propagation "disk full"
      (fun d => Except.ok (batch_recalculate_confidence defaultWeights 100 d))
      (fun _ => Except.error "disk full")
      (fun d => Except.ok (enforce_no_reply_revisit 30 defaultWeights 100 100 d))
      coldDB 30 defaultWeights 100 100).2.1
      (batch_recalculate_confidence defaultWeights 100 coldDB) rfl rfl,
   (run_maintenance_error_propagation "disk full"
      (fun d => Except.ok (batch_recalculate_confidence defaultWeights 100 d))
      (fun _ => Except.error "disk full")
      (fun d => Except.ok (enforce_no_reply_revisit 30 defaultWeights 100 100 d))
      coldDB 30 defaultWeights 100 100).2.2.2.1⟩

/-! ## Frame reasoning for the enforcement jobs -/

/-- The columns the enforcement queries key on. -/
def frameProj (c : Contact) : Nat × String × String × Option Nat :=
  (c.id, c.account_status, c.next_action, c.next_action_date)

/-- The `next_action` / `next_action_date` pair. -/
def naProj (c : Contact) : String × Option Nat :=
  (c.next_action, c.next_action_date)

/-- Id plus the `next_action` pair. -/
def idnaProj (c : Contact) : Nat × String × Option Nat :=
  (c.id, c.next_action, c.next_action_date)

/-- No contact of the store matches the `enforce_revisit_expiry`
selection. -/
def NoExpired (today : Nat) (db : DB) : Prop :=
  ∀ c ∈ db.contacts, expiredRevisit today c = false

/-- No cold/contacted contact of the store matches the
`enforce_no_reply_revisit` parking condition. -/
def NoEligible (db : DB) : Prop :=
  ∀ c ∈ db.contacts,
    (c.account_status = "cold" ∨ c.account_status = "contacted") →
    ¬(3 ≤ outbound_count db.touch_log c.id ∧
      inbound_count db.touch_log c.id = 0)

theorem expired_congr {t : Nat} {c c' : Contact}
    (h : frameProj c = frameProj c') :
    expiredRevisit t c = expiredRevisit t c' := by
  unfold frameProj at h
  simp only [Prod.mk.injEq] at h
  unfold expiredRevisit
  rw [h.2.1, h.2.2.2]

theorem mem_map_proj_exists {β : Type} {proj : Contact → β}
    {l l' : List Contact} (h : l.map proj = l'.map proj) (c' : Contact)
    (hc' : c' ∈ l') : ∃ c ∈ l, proj c = proj c' := by
  have hm : proj c' ∈ l'.map proj := List.mem_map_of_mem _ hc'
  rw [← h] at hm
  exact List.mem_map.mp hm

theorem NoExpired_transfer {today : Nat} {db db' : DB}
    (hc : db.contacts.map frameProj = db'.contacts.map frameProj)
    (h : NoExpired today db) : NoExpired today db' := by
  intro c' hc'
  obtain ⟨c, hcm, he⟩ := mem_map_proj_exists hc c' hc'
  rw [← expired_congr he]
  exact h c hcm

theorem NoEligible_transfer {db db' : DB}
    (hc : db.contacts.map frameProj = db'.contacts.map frameProj)
    (ht : db.touch_log = db'.touch_log) (h : NoEligible db) :
    NoEligible db' := by
  intro c' hc' hst
  obtain ⟨c, hcm, he⟩ := mem_map_proj_exists hc c' hc'
  unfold frameProj at he
  simp only [Prod.mk.injEq] at he
  rw [← ht, ← he.1]
  exact h c hcm (by rw [he.2.1]; exact hst)

/-- The confidence batch job touches neither the enforcement columns nor
the touch log. -/
theorem recalc_fold_preserves (w : Weights) (now : Int) :
    ∀ (ids : List Nat) (n : Nat) (db : DB),
      ((ids.foldl (fun acc cid =>
          (acc.1 + 1, (compute_confidence_score w now acc.2 cid).2))
          (n, db)).2.touch_log = db.touch_log) ∧
      ((ids.foldl (fun acc cid =>
          (acc.1 + 1, (compute_confidence_score w now acc.2 cid).2))
          (n, db)).2.contacts.map frameProj = db.contacts.map frameProj) := by
  intro ids
  induction ids with
  | nil => intro n db; exact ⟨rfl, rfl⟩
  | cons i t ih =>
    intro n db
    rw [List.foldl_cons]
    obtain ⟨h1, h2⟩ := ih (n + 1) (compute_confidence_score w now db i).2
    refine ⟨by rw [h1, compute_confidence_touch_log], ?_⟩
    rw [h2]
    obtain ⟨h, hc, hprops⟩ := compute_confidence_contacts_spec w now db i
    rw [hc, map_updContact frameProj i h ?_]
    intro c
    unfold frameProj
    rw [(hprops c).1, (hprops c).2.1, (hprops c).2.2.1, (hprops c).2.2.2.1]

theorem batch_recalculate_preserves (w : Weights) (now : Int) (db : DB) :
    (batch_recalculate_confidence w now db).2.touch_log = db.touch_log ∧
    (batch_recalculate_confidence w now db).2.contacts.map frameProj
      = db.contacts.map frameProj := by
  unfold batch_recalculate_confidence
  exact recalc_fold_preserves w now _ 0 db

/-- A transition whose target is neither `revisit` nor `dnc` keeps every
contact's id and `next_action` / `next_action_date` (whether it succeeds
or fails). -/
theorem transition_keeps_idna (days : Nat) (w : Weights) (today : Nat)
    (now : Int) (db : DB) (cid : Nat) (ns notes : String)
    (hns1 : ns ≠ "revisit") (hns2 : ns ≠ "dnc") :
    (transition_account_status days w today now db cid ns notes).2.contacts.map
      idnaProj = db.contacts.map idnaProj := by
  by_cases hs : (transition_account_status days w today now db cid ns
      notes).1.success = true
  · obtain ⟨row, g, _, _, hcont, hid, _, hna, hnad, _⟩ :=
      transition_success_spec days w today now db cid ns notes hs
    rw [hcont, map_updContact idnaProj cid g ?_]
    intro c
    unfold idnaProj
    rw [hid c, hna c, hnad c]
    simp [hns1, hns2]
  · rw [transition_fail_spec days w today now db cid ns notes
      ((Bool.not_eq_true _).mp hs)]

theorem expiry_fold_idna (days : Nat) (w : Weights) (today : Nat)
    (now : Int) : ∀ (ids : List Nat) (n : Nat) (db : DB),
    ((ids.foldl (fun acc cid =>
        let r := transition_account_status days w today now acc.2 cid "cold"
          "Revisit expired — reactivated"
        (if r.1.success then acc.1 + 1 else acc.1, r.2)) (n, db)).2.contacts.map
      idnaProj) = db.contacts.map idnaProj := by
  intro ids
  induction ids with
  | nil => intro n db; rfl
  | cons i t ih =>
    intro n db
    rw [List.foldl_cons]
    simp only []
    rw [ih _ _]
    exact transition_keeps_idna days w today now db i "cold" _
      (by decide) (by decide)

theorem enforce_revisit_expiry_idna (days : Nat) (w : Weights) (today : Nat)
    (now : Int) (db : DB) :
    (enforce_revisit_expiry days w today now db).2.contacts.map idnaProj
      = db.contacts.map idnaProj := by
  unfold enforce_revisit_expiry
  exact expiry_fold_idna days w today now _ 0 db

theorem map_split_of_map_idna : ∀ {l l' : List Contact},
    l.map idnaProj = l'.map idnaProj →
    l.map naProj = l'.map naProj ∧
    l.map (fun c => c.id) = l'.map (fun c => c.id) := by
  intro l
  induction l with
  | nil =>
    intro l' h
    cases l' with
    | nil => exact ⟨rfl, rfl⟩
    | cons c' t' => simp at h
  | cons c t ih =>
    intro l' h
    cases l' with
    | nil => simp at h
    | cons c' t' =>
      simp only [List.map_cons, List.cons.injEq] at h ⊢
      obtain ⟨h1, h2⟩ := h
      unfold idnaProj at h1
      simp only [Prod.mk.injEq] at h1
      obtain ⟨ihna, ihid⟩ := ih h2
      exact ⟨⟨by unfold naProj; rw [h1.2.1, h1.2.2], ihna⟩, ⟨h1.1, ihid⟩⟩

/-- With no expired revisit contact, `enforce_revisit_expiry` does
nothing and reports zero reactivations. -/
theorem expiry_noop (days : Nat) (w : Weights) (today : Nat) (now : Int)
    (db : DB) (h : NoExpired today db) :
    enforce_revisit_expiry days w today now db = (0, db) := by
  unfold enforce_revisit_expiry
  have hf : db.contacts.filter (expiredRevisit today) = [] := by
    rw [List.filter_eq_nil_iff]
    intro a ha
    simp [h a ha]
  rw [hf]
  rfl

theorem no_reply_fold_noop (days : Nat) (w : Weights) (today : Nat)
    (now : Int) : ∀ (R : List NoReplyRow) (n : Nat) (db : DB),
    (∀ r ∈ R, ¬(3 ≤ r.outbound_count ∧ r.inbound_count = 0)) →
    R.foldl (no_reply_step days w today now) (n, db) = (n, db) := by
  intro R
  induction R with
  | nil => intro n db _; rfl
  | cons r t ih =>
    intro n db h
    rw [List.foldl_cons]
    have hstep : no_reply_step days w today now (n, db) r = (n, db) := by
      unfold no_reply_step
      rw [if_neg (h r (List.mem_cons_self r t))]
    rw [hstep]
    exact ih n db (fun r' hr' => h r' (List.mem_cons_of_mem r hr'))

/-- With no eligible contact, `enforce_no_reply_revisit` does nothing
and reports zero parked. -/
theorem no_reply_noop (days : Nat) (w : Weights) (today : Nat) (now : Int)
    (db : DB) (h : NoEligible db) :
    enforce_no_reply_revisit days w today now db = (0, db) := by
  unfold enforce_no_reply_revisit
  apply no_reply_fold_noop
  intro r hr
  unfold no_reply_rows at hr
  obtain ⟨c, hcm, hre⟩ := List.mem_map.mp hr
  have hmem := (List.mem_filter.mp hcm).1
  have hsc := (List.mem_filter.mp hcm).2
  unfold noReplyScope at hsc
  rw [decide_eq_true_eq] at hsc
  rw [← hre]
  exact h c hmem hsc.1

/-! ## A relational invariant for `enforce_revisit_expiry`

`ExpiryRel ids S c0 c` relates a contact `c0` of the pre-expiry store to
its row `c` in the current store mid-fold, where `ids` is the full
selected id list and `S` the suffix still to process: ids and the
`next_action` columns never change, unprocessed or unselected rows are
untouched, and processed selected rows have been reactivated to cold. -/

def ExpiryRel (ids S : List Nat) (c0 c : Contact) : Prop :=
  c.id = c0.id ∧ c.next_action = c0.next_action ∧
  c.next_action_date = c0.next_action_date ∧
  (c0.id ∈ S ∨ c0.id ∉ ids → c = c0) ∧
  (c0.id ∉ S → c0.id ∈ ids → c.account_status = "cold")

theorem forall2_imp_map {R R' : Contact → Contact → Prop}
    {f : Contact → Contact} :
    ∀ {l0 l : List Contact}, List.Forall₂ R l0 l →
    (∀ a b, R a b → R' a (f b)) → List.Forall₂ R' l0 (l.map f) := by
  intro l0 l h himp
  induction h with
  | nil => exact List.Forall₂.nil
  | cons hab htail ih => exact List.Forall₂.cons (himp _ _ hab) ih

theorem forall2_mem_right {R : Contact → Contact → Prop} :
    ∀ {l0 l : List Contact}, List.Forall₂ R l0 l →
    ∀ {b}, b ∈ l → ∃ a ∈ l0, R a b := by
  intro l0 l h
  induction h with
  | nil => intro b hb; simp at hb
  | cons hab htail ih =>
    intro b hb
    rcases List.mem_cons.mp hb with rfl | hmem
    · exact ⟨_, List.mem_cons_self _ _, hab⟩
    · obtain ⟨a, ha, hr⟩ := ih hmem
      exact ⟨a, List.mem_cons_of_mem _ ha, hr⟩

theorem forall2_mem_left {R : Contact → Contact → Prop} :
    ∀ {l0 l : List Contact}, List.Forall₂ R l0 l →
    ∀ {a}, a ∈ l0 → ∃ b ∈ l, R a b := by
  intro l0 l h
  induction h with
  | nil => intro a ha; simp at ha
  | cons hab htail ih =>
    intro a ha
    rcases List.mem_cons.mp ha with rfl | hmem
    · exact ⟨_, List.mem_cons_self _ _, hab⟩
    · obtain ⟨b, hb, hr⟩ := ih hmem
      exact ⟨b, List.mem_cons_of_mem _ hb, hr⟩

/-- With distinct source ids, `find?` on the related store returns
exactly the partner of the unique source row with the wanted id. -/
theorem forall2_find_eq {R : Contact → Contact → Prop} :
    ∀ {l0 l : List Contact}, List.Forall₂ R l0 l →
    (∀ a b, R a b → b.id = a.id) →
    (l0.map (fun c => c.id)).Nodup →
    ∀ {c0 : Contact} {i : Nat}, c0 ∈ l0 → c0.id = i →
    ∃ b, l.find? (fun c => c.id == i) = some b ∧ R c0 b := by
  intro l0 l h hid
  induction h with
  | nil => intro _ c0 i hc0 _; simp at hc0
  | @cons a b l0' l' hab htail ih =>
    intro hnd c0 i hc0 hc0i
    rw [List.map_cons] at hnd
    obtain ⟨hanin, hndt⟩ := List.nodup_cons.mp hnd
    by_cases hbi : b.id = i
    · rw [List.find?_cons_of_pos _ (by simp [hbi])]
      rcases List.mem_cons.mp hc0 with rfl | hmem
      · exact ⟨b, rfl, hab⟩
      · exfalso
        apply hanin
        have ha : a.id = i := by rw [← hid a b hab]; exact hbi
        rw [ha, ← hc0i]
        exact List.mem_map_of_mem _ hmem
    · rw [List.find?_cons_of_neg _ (by simp [hbi])]
      rcases List.mem_cons.mp hc0 with rfl | hmem
      · exact absurd ((hid _ _ hab).trans hc0i) hbi
      · exact ih hndt hmem hc0i

/-- Processing one selected id advances the invariant: the processed
contact is reactivated to cold (the transition is guaranteed to succeed),
everything else is untouched. -/
theorem expiry_step_rel (days : Nat) (w : Weights) (today : Nat) (now : Int)
    (db0 : DB) (ids : List Nat) (i : Nat) (S' : List Nat)
    (hnd : (db0.contacts.map (fun c => c.id)).Nodup)
    (hiS' : i ∉ S') (hi_mem : i ∈ ids)
    (hsel : ∀ j ∈ ids, ∃ c0 ∈ db0.contacts,
      c0.id = j ∧ expiredRevisit today c0 = true)
    (dbc : DB)
    (hinv : List.Forall₂ (ExpiryRel ids (i :: S')) db0.contacts dbc.contacts) :
    List.Forall₂ (ExpiryRel ids S') db0.contacts
      (transition_account_status days w today now dbc i "cold"
        "Revisit expired — reactivated").2.contacts := by
  obtain ⟨c0i, hc0m, hc0id, hc0exp⟩ := hsel i hi_mem
  obtain ⟨ci, hfind, hrel⟩ :=
    forall2_find_eq hinv (fun a b hr => hr.1) hnd hc0m hc0id
  have hci : ci = c0i :=
    hrel.2.2.2.1 (Or.inl (by rw [hc0id]; exact List.mem_cons_self i S'))
  have hst : ci.account_status = "revisit" := by
    rw [hci]
    unfold expiredRevisit at hc0exp
    rw [Bool.and_eq_true, decide_eq_true_eq] at hc0exp
    exact hc0exp.1
  have heff : effStatus ci.account_status = "revisit" := by
    unfold effStatus
    rw [hst]
    decide
  have hsucc : (transition_account_status days w today now dbc i "cold"
      "Revisit expired — reactivated").1.success = true := by
    rw [transition_success_char]
    exact ⟨ci, hfind, by rw [heff]; decide, by rw [heff]; decide⟩
  obtain ⟨row, g, hfrow, htl, hcont, hgid, hgst, hgna, hgnad, hgltd⟩ :=
    transition_success_spec days w today now dbc i "cold"
      "Revisit expired — reactivated" hsucc
  rw [hcont]
  unfold updContact
  apply forall2_imp_map hinv
  intro a b hr
  by_cases hbi : b.id = i
  · have hcond : (b.id == i) = true := by simp [hbi]
    rw [if_pos hcond]
    have haid : a.id = i := by rw [← hr.1]; exact hbi
    refine ⟨by rw [hgid b, hr.1], ?_, ?_, ?_, ?_⟩
    · rw [hgna b]
      simp only [if_neg (by decide : ¬("cold" = "revisit")),
        if_neg (by decide : ¬("cold" = "dnc"))]
      exact hr.2.1
    · rw [hgnad b]
      simp only [if_neg (by decide : ¬("cold" = "revisit")),
        if_neg (by decide : ¬("cold" = "dnc"))]
      exact hr.2.2.1
    · intro hmem
      rcases hmem with hS | hnin
      · rw [haid] at hS
        exact absurd hS hiS'
      · rw [haid] at hnin
        exact absurd hi_mem hnin
    · intro _ _
      exact hgst b
  · have hcond : ¬((b.id == i) = true) := by simp [hbi]
    rw [if_neg hcond]
    have haid : a.id ≠ i := by rw [← hr.1]; exact hbi
    refine ⟨hr.1, hr.2.1, hr.2.2.1, ?_, ?_⟩
    · intro hmem
      rcases hmem with hS | hnin
      · exact hr.2.2.2.1 (Or.inl (List.mem_cons_of_mem i hS))
      · exact hr.2.2.2.1 (Or.inr hnin)
    · intro hnS hin
      refine hr.2.2.2.2 ?_ hin
      intro hcons
      rcases List.mem_cons.mp hcons with he | hS
      · exact haid he
      · exact hnS hS

theorem expiry_fold_rel (days : Nat) (w : Weights) (today : Nat) (now : Int)
    (db0 : DB) (ids : List Nat)
    (hnd : (db0.contacts.map (fun c => c.id)).Nodup)
    (hsel : ∀ j ∈ ids, ∃ c0 ∈ db0.contacts,
      c0.id = j ∧ expiredRevisit today c0 = true) :
    ∀ (S : List Nat), S.Nodup → (∀ j ∈ S, j ∈ ids) →
    ∀ (n : Nat) (dbc : DB),
    List.Forall₂ (ExpiryRel ids S) db0.contacts dbc.contacts →
    List.Forall₂ (ExpiryRel ids []) db0.contacts
      ((S.foldl (fun acc cid =>
        let r := transition_account_status days w today now acc.2 cid "cold"
          "Revisit expired — reactivated"
        (if r.1.success then acc.1 + 1 else acc.1, r.2)) (n, dbc)).2.contacts) := by
  intro S
  induction S with
  | nil => intro _ _ n dbc hinv; exact hinv
  | cons i S' ih =>
    intro hS hsub n dbc hinv
    rw [List.foldl_cons]
    simp only []
    apply ih (List.Nodup.of_cons hS)
      (fun j hj => hsub j (List.mem_cons_of_mem i hj))
    exact expiry_step_rel days w today now db0 ids i S' hnd
      (List.nodup_cons.mp hS).1 (hsub i (List.mem_cons_self i S')) hsel dbc hinv

/-- The net effect of `enforce_revisit_expiry` on the contact rows, as a
pointwise relation with the input store. -/
theorem enforce_revisit_expiry_rel (days : Nat) (w : Weights) (today : Nat)
    (now : Int) (db : DB)
    (hnd : (db.contacts.map (fun c => c.id)).Nodup) :
    List.Forall₂
      (ExpiryRel
        ((db.contacts.filter (expiredRevisit today)).map (fun c => c.id)) [])
      db.contacts (enforce_revisit_expiry days w today now db).2.contacts := by
  unfold enforce_revisit_expiry
  apply expiry_fold_rel days w today now db _ hnd ?hsel _ ?hnodup ?hsub 0 db
    ?hinit
  case hsel =>
    intro j hj
    obtain ⟨c0, hc0, hid⟩ := List.mem_map.mp hj
    exact ⟨c0, (List.mem_filter.mp hc0).1, hid, (List.mem_filter.mp hc0).2⟩
  case hnodup =>
    exact List.Nodup.sublist
      (List.Sublist.map (fun c : Contact => c.id) (List.filter_sublist _)) hnd
  case hsub => exact fun j hj => hj
  case hinit =>
    rw [List.forall₂_same]
    exact fun a _ => ⟨rfl, rfl, rfl, fun _ => rfl, fun h1 h2 => absurd h2 h1⟩

/-- After `enforce_revisit_expiry`, no contact matches its selection. -/
theorem expiry_NoExpired (days : Nat) (w : Weights) (today : Nat) (now : Int)
    (db : DB) (hnd : (db.contacts.map (fun c => c.id)).Nodup) :
    NoExpired today (enforce_revisit_expiry days w today now db).2 := by
  intro c' hc'
  obtain ⟨c0, hc0, hrel⟩ :=
    forall2_mem_right (enforce_revisit_expiry_rel days w today now db hnd) hc'
  by_cases hin : c0.id ∈
      (db.contacts.filter (expiredRevisit today)).map (fun c => c.id)
  · have hcold := hrel.2.2.2.2 (by simp) hin
    unfold expiredRevisit
    rw [hcold]
    simp
  · have hceq := hrel.2.2.2.1 (Or.inr hin)
    rw [hceq]
    cases hx : expiredRevisit today c0 with
    | false => rfl
    | true =>
      exact absurd (List.mem_map_of_mem _ (List.mem_filter.mpr ⟨hc0, hx⟩)) hin

/-- Each expired revisit contact ends up cold, with its (expired)
`next_action_date` and old `next_action` tag left in place. -/
theorem expiry_reactivated_cold (days : Nat) (w : Weights) (today : Nat)
    (now : Int) (db : DB)
    (hnd : (db.contacts.map (fun c => c.id)).Nodup) (c0 : Contact)
    (hc0 : c0 ∈ db.contacts) (hexp : expiredRevisit today c0 = true) :
    ∃ c' ∈ (enforce_revisit_expiry days w today now db).2.contacts,
      c'.id = c0.id ∧ c'.account_status = "cold" ∧
      c'.next_action = c0.next_action ∧
      c'.next_action_date = c0.next_action_date := by
  obtain ⟨c', hc', hrel⟩ :=
    forall2_mem_left (enforce_revisit_expiry_rel days w today now db hnd) hc0
  exact ⟨c', hc', hrel.1,
    hrel.2.2.2.2 (by simp)
      (List.mem_map_of_mem _ (List.mem_filter.mpr ⟨hc0, hexp⟩)),
    hrel.2.1, hrel.2.2.1⟩

/-! ## Invariants of `enforce_no_reply_revisit` -/

theorem inbound_count_append (tl l2 : List Touch) (cid : Nat) :
    inbound_count (tl ++ l2) cid =
      inbound_count tl cid + inbound_count l2 cid := by
  simp [inbound_count, List.filter_append]

theorem findContact_eq_of_mem_nodup :
    ∀ {l : List Contact}, (l.map (fun c => c.id)).Nodup →
    ∀ {c : Contact}, c ∈ l → ∀ {i : Nat}, c.id = i →
    l.find? (fun c => c.id == i) = some c := by
  intro l
  induction l with
  | nil => intro _ c hc; simp at hc
  | cons a t ih =>
    intro hnd c hc i hci
    rw [List.map_cons] at hnd
    obtain ⟨hanin, hndt⟩ := List.nodup_cons.mp hnd
    rcases List.mem_cons.mp hc with rfl | hmem
    · rw [List.find?_cons_of_pos _ (by simp [hci])]
    · by_cases hai : a.id = i
      · exact absurd (by rw [hai, ← hci]; exact List.mem_map_of_mem _ hmem)
          hanin
      · rw [List.find?_cons_of_neg _ (by simp [hai])]
        exact ih hndt hmem hci

theorem expired_false_of_future {c : Contact} {d t : Nat}
    (hnad : c.next_action_date = some d) (hd : ¬(d ≤ t)) :
    expiredRevisit t c = false := by
  unfold expiredRevisit dateDue
  rw [hnad]
  simp [hd]

/-- One no-reply parking step cannot create an expired revisit row: the
rows it parks get a fresh timer `today + days`, in the future whenever
`1 ≤ days`. -/
theorem no_reply_step_NoExpired (days : Nat) (w : Weights) (today : Nat)
    (now : Int) (hdays : 1 ≤ days) (acc : Nat × DB) (r : NoReplyRow)
    (h : NoExpired today acc.2) :
    NoExpired today (no_reply_step days w today now acc r).2 := by
  have hfresh : dateDue today (some (today + days)) = false := by
    unfold dateDue
    simp
    omega
  unfold no_reply_step
  by_cases hg : r.outbound_count ≥ 3 ∧ r.inbound_count = 0
  · rw [if_pos hg]
    by_cases hcold : r.account_status = "cold"
    · rw [if_pos hcold]
      intro c' hc'
      unfold updContact at hc'
      obtain ⟨c, hcm, hceq⟩ := List.mem_map.mp hc'
      by_cases hcid : (c.id == r.id) = true
      · rw [if_pos hcid] at hceq
        rw [← hceq]
        exact expired_false_of_future rfl (by omega)
      · rw [if_neg hcid] at hceq
        rw [← hceq]
        exact h c hcm
    · rw [if_neg hcold]
      by_cases hcont : r.account_status = "contacted"
      · rw [if_pos hcont]
        simp only []
        by_cases hs : (transition_account_status days w today now acc.2 r.id
            "revisit" "3 email touches with no reply — parked").1.success = true
        · rw [if_pos hs]
          obtain ⟨row, g, hfrow, htl, hcont2, hgid, hgst, hgna, hgnad, hgltd⟩ :=
            transition_success_spec days w today now acc.2 r.id "revisit"
              "3 email touches with no reply — parked" hs
          intro c' hc'
          simp only [hcont2] at hc'
          rw [updContact_updContact r.id g _ hgid] at hc'
          unfold updContact at hc'
          obtain ⟨c, hcm, hceq⟩ := List.mem_map.mp hc'
          by_cases hcid : (c.id == r.id) = true
          · rw [if_pos hcid] at hceq
            rw [← hceq]
            exact expired_false_of_future rfl (by omega)
          · rw [if_neg hcid] at hceq
            rw [← hceq]
            exact h c hcm
        · rw [if_neg hs]
          rw [transition_fail_spec days w today now acc.2 r.id "revisit"
            "3 email touches with no reply — parked" ((Bool.not_eq_true _).mp hs)]
          exact h
      · rw [if_neg hcont]
        exact h
  · rw [if_neg hg]
    exact h

theorem db_with_contacts_touch_log (db : DB) (l : List Contact) :
    ({ db with contacts := l } : DB).touch_log = db.touch_log := rfl

theorem counts_append_other (tl : List Touch) (t : Touch) (i : Nat)
    (hne : t.contact_id ≠ i) :
    outbound_count (tl ++ [t]) i = outbound_count tl i ∧
    inbound_count (tl ++ [t]) i = inbound_count tl i := by
  constructor
  · rw [outbound_count_append]
    simp [outbound_count, hne]
  · rw [inbound_count_append]
    simp [inbound_count, hne]

/-- Mid-fold invariant of the `enforce_no_reply_revisit` loop: every
cold/contacted contact is either ineligible (fails the 3-outbound /
0-inbound test on the current log) or still has its snapshot row, with
its current counts, among the rows left to process. -/
def NoReplyInv (R : List NoReplyRow) (db : DB) : Prop :=
  ∀ c ∈ db.contacts,
    (c.account_status = "cold" ∨ c.account_status = "contacted") →
    (¬(3 ≤ outbound_count db.touch_log c.id ∧
       inbound_count db.touch_log c.id = 0) ∨
     ∃ r ∈ R, r.id = c.id ∧ r.account_status = c.account_status ∧
       r.outbound_count = outbound_count db.touch_log c.id ∧
       r.inbound_count = inbound_count db.touch_log c.id)

theorem no_reply_step_inv (days : Nat) (w : Weights) (today : Nat)
    (now : Int) (r : NoReplyRow) (R' : List NoReplyRow) (acc : Nat × DB)
    (hnd : (acc.2.contacts.map (fun c => c.id)).Nodup)
    (hinv : NoReplyInv (r :: R') acc.2) :
    NoReplyInv R' (no_reply_step days w today now acc r).2 ∧
    (no_reply_step days w today now acc r).2.contacts.map (fun c => c.id)
      = acc.2.contacts.map (fun c => c.id) := by
  unfold no_reply_step
  by_cases hg : r.outbound_count ≥ 3 ∧ r.inbound_count = 0
  case neg =>
    rw [if_neg hg]
    refine ⟨?_, rfl⟩
    intro c hc hst
    rcases hinv c hc hst with hL | ⟨r0, hr0, h1, h2, h3, h4⟩
    · exact Or.inl hL
    · rcases List.mem_cons.mp hr0 with rfl | hR'
      · left
        rw [h3, h4] at hg
        exact hg
      · exact Or.inr ⟨r0, hR', h1, h2, h3, h4⟩
  case pos =>
    rw [if_pos hg]
    by_cases hcold : r.account_status = "cold"
    · rw [if_pos hcold]
      refine ⟨?_, ?_⟩
      · intro c' hc' hst
        unfold updContact at hc'
        obtain ⟨c, hcm, hceq⟩ := List.mem_map.mp hc'
        by_cases hcid : (c.id == r.id) = true
        · rw [if_pos hcid] at hceq
          rw [← hceq] at hst
          simp at hst
        · rw [if_neg hcid] at hceq
          simp only [Nat.beq_eq_true_eq] at hcid
          subst hceq
          rcases hinv c hcm hst with hL | ⟨r0, hr0, h1, h2, h3, h4⟩
          · exact Or.inl hL
          · rcases List.mem_cons.mp hr0 with rfl | hR'
            · exact absurd h1.symm hcid
            · exact Or.inr ⟨r0, hR', h1, h2, h3, h4⟩
      · apply map_updContact
        intro c
        rfl
    · rw [if_neg hcold]
      by_cases hcont : r.account_status = "contacted"
      · rw [if_pos hcont]
        simp only []
        by_cases hs : (transition_account_status days w today now acc.2 r.id
            "revisit" "3 email touches with no reply — parked").1.success = true
        · rw [if_pos hs]
          obtain ⟨row, g, hfrow, htl, hcont2, hgid, hgst, hgna, hgnad, hgltd⟩ :=
            transition_success_spec days w today now acc.2 r.id "revisit"
              "3 email touches with no reply — parked" hs
          have htne : (transTouch r.id (effStatus row.account_status) "revisit"
              "3 email touches with no reply — parked" today).contact_id
              = r.id := rfl
          constructor
          · intro c' hc' hst
            simp only [hcont2] at hc'
            rw [updContact_updContact r.id g _ hgid] at hc'
            unfold updContact at hc'
            obtain ⟨c, hcm, hceq⟩ := List.mem_map.mp hc'
            by_cases hcid : (c.id == r.id) = true
            · rw [if_pos hcid] at hceq
              rw [← hceq] at hst
              simp [hgst c] at hst
            · rw [if_neg hcid] at hceq
              simp only [Nat.beq_eq_true_eq] at hcid
              subst hceq
              have hcnt := counts_append_other acc.2.touch_log
                (transTouch r.id (effStatus row.account_status) "revisit"
                  "3 email touches with no reply — parked" today)
                c.id (by rw [htne]; exact fun he => hcid he.symm)
              rw [db_with_contacts_touch_log, htl, hcnt.1, hcnt.2]
              rcases hinv c hcm hst with hL | ⟨r0, hr0, h1, h2, h3, h4⟩
              · exact Or.inl hL
              · rcases List.mem_cons.mp hr0 with rfl | hR'
                · exact absurd h1.symm hcid
                · exact Or.inr ⟨r0, hR', h1, h2, h3, h4⟩
          · simp only [hcont2]
            rw [updContact_updContact r.id g _ hgid]
            apply map_updContact
            intro c
            exact hgid c
        · rw [if_neg hs]
          rw [transition_fail_spec days w today now acc.2 r.id "revisit"
            "3 email touches with no reply — parked" ((Bool.not_eq_true _).mp hs)]
          refine ⟨?_, rfl⟩
          intro c hc hst
          rcases hinv c hc hst with hL | ⟨r0, hr0, h1, h2, h3, h4⟩
          · exact Or.inl hL
          · rcases List.mem_cons.mp hr0 with rfl | hR'
            · exfalso
              have hfind : findContact acc.2 r0.id = some c :=
                findContact_eq_of_mem_nodup hnd hc h1.symm
              have hcs : c.account_status = "contacted" := by
                rw [← h2, hcont]
              have heff : effStatus c.account_status = "contacted" := by
                unfold effStatus
                rw [hcs]
                decide
              apply hs
              rw [transition_success_char]
              exact ⟨c, hfind, by rw [heff]; decide, by rw [heff]; decide⟩
            · exact Or.inr ⟨r0, hR', h1, h2, h3, h4⟩
      · rw [if_neg hcont]
        refine ⟨?_, rfl⟩
        intro c hc hst
        rcases hinv c hc hst with hL | ⟨r0, hr0, h1, h2, h3, h4⟩
        · exact Or.inl hL
        · rcases List.mem_cons.mp hr0 with rfl | hR'
          · exfalso
            rcases hst with hcs | hcs
            · exact hcold (by rw [h2, hcs])
            · exact hcont (by rw [h2, hcs])
          · exact Or.inr ⟨r0, hR', h1, h2, h3, h4⟩

theorem no_reply_fold_NoExpired (days : Nat) (w : Weights) (today : Nat)
    (now : Int) (hdays : 1 ≤ days) :
    ∀ (R : List NoReplyRow) (acc : Nat × DB), NoExpired today acc.2 →
    NoExpired today (R.foldl (no_reply_step days w today now) acc).2 := by
  intro R
  induction R with
  | nil => intro acc h; exact h
  | cons r t ih =>
    intro acc h
    rw [List.foldl_cons]
    exact ih _ (no_reply_step_NoExpired days w today now hdays acc r h)

theorem no_reply_fold_inv (days : Nat) (w : Weights) (today : Nat)
    (now : Int) : ∀ (R : List NoReplyRow) (acc : Nat × DB),
    (acc.2.contacts.map (fun c => c.id)).Nodup → NoReplyInv R acc.2 →
    NoReplyInv [] (R.foldl (no_reply_step days w today now) acc).2 := by
  intro R
  induction R with
  | nil => intro acc _ h; exact h
  | cons r t ih =>
    intro acc hnd hinv
    rw [List.foldl_cons]
    obtain ⟨hinv2, hmap⟩ := no_reply_step_inv days w today now r t acc hnd hinv
    exact ih _ (by rw [hmap]; exact hnd) hinv2

/-- After `enforce_no_reply_revisit`, no cold/contacted contact still
matches the 3-outbound / 0-inbound parking condition. -/
theorem enforce_no_reply_NoEligible (days : Nat) (w : Weights) (today : Nat)
    (now : Int) (db : DB)
    (hnd : (db.contacts.map (fun c => c.id)).Nodup) :
    NoEligible (enforce_no_reply_revisit days w today now db).2 := by
  unfold enforce_no_reply_revisit
  have h0 : NoReplyInv (no_reply_rows db) db := by
    intro c hc hst
    right
    refine ⟨⟨c.id, c.account_status, outbound_count db.touch_log c.id,
      inbound_count db.touch_log c.id⟩, ?_, rfl, rfl, rfl, rfl⟩
    unfold no_reply_rows
    refine List.mem_map_of_mem _ (List.mem_filter.mpr ⟨hc, ?_⟩)
    unfold noReplyScope
    rw [decide_eq_true_eq]
    refine ⟨hst, ?_⟩
    rcases hst with h | h <;> rw [h] <;> decide
  have hfin := no_reply_fold_inv days w today now (no_reply_rows db) (0, db)
    hnd h0
  intro c hc hst
  rcases hfin c hc hst with hL | ⟨r0, hr0, _⟩
  · exact hL
  · simp at hr0

theorem map_id_of_map_frame {l l' : List Contact}
    (h : l.map frameProj = l'.map frameProj) :
    l.map (fun c => c.id) = l'.map (fun c => c.id) := by
  have h2 := congrArg
    (List.map (fun t : Nat × String × String × Option Nat => t.1)) h
  rw [List.map_map, List.map_map] at h2
  exact h2

theorem run_reactivated_eq (days : Nat) (w : Weights) (today : Nat)
    (now : Int) (db : DB) :
    (run_account_maintenance days w today now db).1.reactivated
      = (enforce_revisit_expiry days w today now
          (batch_recalculate_confidence w now db).2).1 := rfl

theorem run_parked_eq (days : Nat) (w : Weights) (today : Nat)
    (now : Int) (db : DB) :
    (run_account_maintenance days w today now db).1.parked
      = (enforce_no_reply_revisit days w today now
          (enforce_revisit_expiry days w today now
            (batch_recalculate_confidence w now db).2).2).1 := rfl

/-- C8: running `run_account_maintenance` twice in a row (same day, no
intervening events) makes the second pass a no-op for enforcement:
`reactivated = 0` and `parked = 0` — the first pass leaves no expired
revisit contact and no still-eligible no-reply contact, and the
enforcement queries of the second pass therefore select nothing.  Needs a
positive revisit timer (`1 ≤ revisit_no_reply_days`) and the primary-key
uniqueness of contact ids. -/
theorem run_account_maintenance_second_pass_zero (days : Nat) (w : Weights)
    (today : Nat) (now : Int) (db : DB) (hdays : 1 ≤ days)
    (hnd : (db.contacts.map (fun c => c.id)).Nodup) :
    (run_account_maintenance days w today now
      (run_account_maintenance days w today now db).2).1.reactivated = 0 ∧
    (run_account_maintenance days w today now
      (run_account_maintenance days w today now db).2).1.parked = 0 := by
  obtain ⟨htlA, hfrA⟩ := batch_recalculate_preserves w now db
  have hndA : ((batch_recalculate_confidence w now db).2.contacts.map
      (fun c => c.id)).Nodup := by
    rw [map_id_of_map_frame hfrA]
    exact hnd
  have hNoExpB := expiry_NoExpired days w today now
    (batch_recalculate_confidence w now db).2 hndA
  have hndB : ((enforce_revisit_expiry days w today now
      (batch_recalculate_confidence w now db).2).2.contacts.map
      (fun c => c.id)).Nodup := by
    rw [(map_split_of_map_idna (enforce_revisit_expiry_idna days w today now
      (batch_recalculate_confidence w now db).2)).2]
    exact hndA
  have hNoExpC : NoExpired today
      (enforce_no_reply_revisit days w today now
        (enforce_revisit_expiry days w today now
          (batch_recalculate_confidence w now db).2).2).2 := by
    unfold enforce_no_reply_revisit
    exact no_reply_fold_NoExpired days w today now hdays _ _ hNoExpB
  have hNoEligC := enforce_no_reply_NoEligible days w today now
    (enforce_revisit_expiry days w today now
      (batch_recalculate_confidence w now db).2).2 hndB
  -- the state after the first full pass
  have hC : (run_account_maintenance days w today now db).2 =
      (enforce_no_reply_revisit days w today now
        (enforce_revisit_expiry days w today now
          (batch_recalculate_confidence w now db).2).2).2 := rfl
  obtain ⟨htlA2, hfrA2⟩ := batch_recalculate_preserves w now
    (run_account_maintenance days w today now db).2
  rw [hC] at htlA2 hfrA2
  have hNoExpA2 : NoExpired today
      (batch_recalculate_confidence w now
        (run_account_maintenance days w today now db).2).2 := by
    rw [hC]
    exact NoExpired_transfer hfrA2.symm hNoExpC
  have hNoEligA2 : NoEligible
      (batch_recalculate_confidence w now
        (run_account_maintenance days w today now db).2).2 := by
    rw [hC]
    exact NoEligible_transfer hfrA2.symm htlA2.symm hNoEligC
  have hexp0 := expiry_noop days w today now _ hNoExpA2
  have hnr0 := no_reply_noop days w today now _ hNoEligA2
  constructor
  · rw [run_reactivated_eq]
    exact congrArg Prod.fst hexp0
  · rw [run_parked_eq, hexp0]
    exact congrArg Prod.fst hnr0

/-- A contact sitting in revisit with an expired timer, for the
witnesses. -/
def revisitContact : Contact :=
  { baseContact with
    id := 3, account_status := "revisit",
    next_action := "revisit_expiry", next_action_date := some 50 }

def revisitDB : DB := { contacts := [revisitContact], touch_log := [] }

/-- Witness for C8 on a one-contact store with an expired revisit row. -/
theorem run_account_maintenance_second_pass_zero_witness :
    (run_account_maintenance 30 defaultWeights 100 100
      (run_account_maintenance 30 defaultWeights 100 100
        revisitDB).2).1.reactivated = 0 ∧
    (run_account_maintenance 30 defaultWeights 100 100
      (run_account_maintenance 30 defaultWeights 100 100
        revisitDB).2).1.parked = 0 :=
  run_account_maintenance_second_pass_zero 30 defaultWeights 100 100
    revisitDB (by decide) (by decide)

/-- C10: a successful transition whose target is neither `revisit` nor
`dnc` leaves every contact's `next_action` and `next_action_date`
untouched; consequently the `revisit → cold` reactivations of
`enforce_revisit_expiry` leave the expired `next_action_date` and the old
`next_action` tag in place on the now-cold contact. -/
theorem transition_and_expiry_keep_next_action (days : Nat) (w : Weights)
    (today : Nat) (now : Int) (db : DB) (cid : Nat) (ns notes : String) :
    ((transition_account_status days w today now db cid ns notes).1.success
        = true → ns ≠ "revisit" → ns ≠ "dnc" →
      (transition_account_status days w today now db cid ns
        notes).2.contacts.map naProj = db.contacts.map naProj) ∧
    ((enforce_revisit_expiry days w today now db).2.contacts.map naProj
      = db.contacts.map naProj) ∧
    ((db.contacts.map (fun c => c.id)).Nodup →
      ∀ c0 ∈ db.contacts, expiredRevisit today c0 = true →
      ∃ c' ∈ (enforce_revisit_expiry days w today now db).2.contacts,
        c'.id = c0.id ∧ c'.account_status = "cold" ∧
        c'.next_action = c0.next_action ∧
        c'.next_action_date = c0.next_action_date) := by
  refine ⟨?_, ?_, ?_⟩
  · intro _ hns1 hns2
    exact (map_split_of_map_idna
      (transition_keeps_idna days w today now db cid ns notes hns1 hns2)).1
  · exact (map_split_of_map_idna
      (enforce_revisit_expiry_idna days w today now db)).1
  · intro hnd c0 hc0 hexp
    exact expiry_reactivated_cold days w today now db hnd c0 hc0 hexp

/-- Witness for C10: a concrete `cold → contacted` transition and a
concrete expired-revisit reactivation. -/
theorem transition_and_expiry_keep_next_action_witness :
    ((transition_account_status 30 defaultWeights 100 100 coldDB 1
      "contacted" "n").2.contacts.map naProj = coldDB.contacts.map naProj) ∧
    ((enforce_revisit_expiry 30 defaultWeights 100 100
      revisitDB).2.contacts.map naProj = revisitDB.contacts.map naProj) ∧
    (∃ c' ∈ (enforce_revisit_expiry 30 defaultWeights 100 100
        revisitDB).2.contacts,
      c'.id = revisitContact.id ∧ c'.account_status = "cold" ∧
      c'.next_action = revisitContact.next_action ∧
      c'.next_action_date = revisitContact.next_action_date) :=
  ⟨(transition_and_expiry_keep_next_action 30 defaultWeights 100 100 coldDB 1
      "contacted" "n").1 (by decide) (by decide) (by decide),
   (transition_and_expiry_keep_next_action 30 defaultWeights 100 100
      revisitDB 1 "contacted" "n").2.1,
   (transition_and_expiry_keep_next_action 30 defaultWeights 100 100
      revisitDB 1 "contacted" "n").2.2 (by decide) revisitContact
      (by decide) (by decide)⟩

end StarMovers
